import Mathlib

/-!
# xencons monitor service: shallow embedding of `src/monitor/monitor.c`

The monitor is a Windows service that watches for the xencons device interface,
opens the device when it arrives, and keeps a companion executable running for
as long as the device is attached.

## Conventions of the embedding

* A `HANDLE` (and every pointer-sized token such as `HDEVNOTIFY`) is its machine
  value read as a signed integer: `NULL` is `0`, `INVALID_HANDLE_VALUE` is `-1`.
* A `DWORD` is a natural number; where the C code does arithmetic on it the
  result is reduced modulo `2 ^ 32`.
* A C string is the list of its characters before the terminating NUL; a
  `PTCHAR` is `none` for `NULL` and `some s` for a pointer to `s`.
* Every call the code makes to the operating system or the C runtime appears as
  one `Effect` in a trace, in program order.  What the call returned is an input
  of the embedded function (its *outcomes*), so every theorem quantifies over
  what the operating system answers.
* Diagnostics (`Log`, and the `GetLastError` / `GetErrorMessage` / `LocalFree`
  epilogue that only feeds `Log`) change no program state and are left out of
  the traces.
* `CreateProcess` is the ANSI entry point, which leaves the command-line buffer
  as it found it.
* A loop that the operating system can keep alive for ever is run with a bound
  on the number of iterations observed (`fuel`, or a finite list of outcomes);
  the result says whether the function returned within that bound.
-/

namespace Xencons

/-! ## Machine-level types and constants -/

abbrev HANDLE := Int
abbrev HDEVNOTIFY := Int
abbrev DWORD := Nat
abbrev GUID := Nat
abbrev TSTR := List Char
abbrev PTCHAR := Option TSTR

def NULL : HANDLE := 0
def INVALID_HANDLE_VALUE : HANDLE := -1

/-- The NUL character that terminates a C string. -/
def NUL : Char := Char.ofNat 0

/-- Bytes per `TCHAR`.  The file is built as ANSI: it passes narrow literals
where `TCHAR` strings are expected (`"Executable"` to `RegQueryValueEx`, a
`const CHAR *` format to `StringCchVPrintf` with a `TCHAR` buffer). -/
def sizeof_TCHAR : Nat := 1

def DWORD_MOD : Nat := 2 ^ 32

-- winsvc.h: service states and controls
def SERVICE_STOPPED : DWORD := 1
def SERVICE_START_PENDING : DWORD := 2
def SERVICE_STOP_PENDING : DWORD := 3
def SERVICE_RUNNING : DWORD := 4
def SERVICE_ACCEPT_STOP : DWORD := 1
def SERVICE_ACCEPT_SHUTDOWN : DWORD := 4
def SERVICE_ACCEPT_SESSIONCHANGE : DWORD := 128
def SERVICE_CONTROL_STOP : DWORD := 1
def SERVICE_CONTROL_INTERROGATE : DWORD := 4
def SERVICE_CONTROL_SHUTDOWN : DWORD := 5
def SERVICE_CONTROL_DEVICEEVENT : DWORD := 11
-- dbt.h: device broadcast events and payload types
def DBT_DEVICEARRIVAL : DWORD := 32768
def DBT_DEVICEQUERYREMOVE : DWORD := 32769
def DBT_DEVTYP_DEVICEINTERFACE : DWORD := 5
def DBT_DEVTYP_HANDLE : DWORD := 6
-- winerror.h
def NO_ERROR : DWORD := 0
def ERROR_INSUFFICIENT_BUFFER : DWORD := 122
def ERROR_CALL_NOT_IMPLEMENTED : DWORD := 120
def ERROR_SUCCESS : DWORD := 0
def ERROR_FILE_NOT_FOUND : DWORD := 2
-- winnt.h: registry value types and service types
def REG_SZ : DWORD := 1
def REG_DWORD : DWORD := 4
def SERVICE_WIN32_OWN_PROCESS : DWORD := 16
-- winbase.h: wait results
def WAIT_OBJECT_0 : DWORD := 0
def WAIT_OBJECT_1 : DWORD := WAIT_OBJECT_0 + 1
def WAIT_OBJECT_2 : DWORD := WAIT_OBJECT_0 + 2

structure SERVICE_STATUS where
  dwServiceType : DWORD
  dwCurrentState : DWORD
  dwControlsAccepted : DWORD
  dwWin32ExitCode : DWORD
  dwServiceSpecificExitCode : DWORD
  dwCheckPoint : DWORD
  dwWaitHint : DWORD
  deriving DecidableEq, Repr

/-- The global `MonitorContext`.  `CheckPoint` is the `static` local of
`ReportStatus`, the only other mutable global of the program. -/
structure MONITOR_CONTEXT where
  Status : SERVICE_STATUS
  Service : HANDLE
  ParametersKey : HANDLE
  EventLog : HANDLE
  StopEvent : HANDLE
  AddEvent : HANDLE
  RemoveEvent : HANDLE
  Executable : PTCHAR
  InterfaceNotification : HDEVNOTIFY
  DevicePath : PTCHAR
  DeviceNotification : HDEVNOTIFY
  Device : HANDLE
  ThreadEvent : HANDLE
  Thread : HANDLE
  CheckPoint : DWORD
  deriving DecidableEq, Repr

/-! ## Effects: the calls the program makes, in program order -/

inductive Effect where
  | SetupDiGetClassDevs (Guid : GUID) (result : HANDLE)
  | SetupDiEnumDeviceInterfaces (DeviceInfoSet : HANDLE) (Guid : GUID) (result : Bool)
  | SetupDiGetDeviceInterfaceDetail (DeviceInfoSet : HANDLE) (Size : DWORD) (result : Bool)
  | callocDetail (Size : DWORD) (result : Bool)
  | freeDetail
  | tcsdup (text : TSTR) (result : Bool)
  | SetupDiDestroyDeviceInfoList (DeviceInfoSet : HANDLE)
  | CreateFile (Path : TSTR) (result : HANDLE)
  | WriteFile (Handle : HANDLE) (Buffer : TSTR) (Offset : DWORD) (NumberOfBytesToWrite : DWORD)
      (Success : Bool) (Written : DWORD)
  | RegisterDeviceNotification (Recipient : HANDLE) (devicetype : DWORD) (handle : HANDLE)
      (classguid : GUID) (result : HDEVNOTIFY)
  | UnregisterDeviceNotification (Notification : HDEVNOTIFY)
  | CreateEvent (result : HANDLE)
  | SetEvent (Event : HANDLE)
  | ResetEvent (Event : HANDLE)
  | CreateThread (result : HANDLE)
  | WaitForSingleObject (Handle : HANDLE)
  | WaitForMultipleObjects (Handles : List HANDLE) (result : DWORD)
  | CloseHandle (Handle : HANDLE)
  | free (Pointer : PTCHAR)
  | callocCommandLine (Size : DWORD) (result : Bool)
  | CreateProcess (CommandLine : TSTR) (Success : Bool) (hProcess hThread : HANDLE)
  | TerminateProcess (Process : HANDLE) (ExitCode : DWORD)
  | SetServiceStatus (Service : HANDLE) (Status : SERVICE_STATUS)
  | RegOpenKeyEx (Error : DWORD) (Key : HANDLE)
  | RegisterServiceCtrlHandlerEx (result : HANDLE)
  | RegisterEventSource (result : HANDLE)
  | DeregisterEventSource (EventLog : HANDLE)
  | RegQueryInfoKey (Key : HANDLE) (Error : DWORD) (MaxValueLength : DWORD)
  | callocExecutable (Size : DWORD) (result : Bool)
  | RegQueryValueEx (Key : HANDLE) (Error : DWORD) (ValueType : DWORD)
  deriving DecidableEq, Repr

/-- What a function did: the context it left, the calls it made, and whether it
returned within the observation bound. -/
structure Outcome where
  ctx : MONITOR_CONTEXT
  trace : List Effect
  returned : Bool
  deriving DecidableEq, Repr

/-! ## `PutString` (monitor.c 459-486) -/

/-- What one `WriteFile` call answered. -/
structure WriteResult where
  Success : Bool
  Written : DWORD
  deriving DecidableEq, Repr

/-- The answers of `WriteFile` within one `PutString`: the answer to the `k`-th
call (from 0) when it asks for `n` bytes is `f k n`. -/
abbrev WriteOutcomes := Nat → DWORD → WriteResult

structure PutResult where
  trace : List Effect
  Offset : DWORD
  returned : Bool
  deriving DecidableEq, Repr

/-- The `while (Offset < Length)` loop of `PutString`, from the `k`-th call on,
observed for at most `fuel` iterations. -/
def PutStringLoop (WriteFile : WriteOutcomes) (Handle : HANDLE) (Buffer : TSTR) (Length : DWORD) :
    Nat → Nat → DWORD → PutResult
  | 0, _, Offset => { trace := [], Offset := Offset, returned := decide (¬ Offset < Length) }
  | fuel + 1, k, Offset =>
    if Offset < Length then
      let r := WriteFile k (Length - Offset)
      let call := Effect.WriteFile Handle Buffer Offset (Length - Offset) r.Success r.Written
      if r.Success = false then
        { trace := [call], Offset := Offset, returned := true }
      else
        let rest := PutStringLoop WriteFile Handle Buffer Length fuel (k + 1)
          ((Offset + r.Written) % DWORD_MOD)
        { rest with trace := call :: rest.trace }
    else
      { trace := [], Offset := Offset, returned := true }

def PutString (WriteFile : WriteOutcomes) (fuel : Nat) (Handle : HANDLE) (Buffer : TSTR)
    (Length : DWORD) : PutResult :=
  PutStringLoop WriteFile Handle Buffer Length fuel 0 0

/-- The `ECHO` macro: `PutString(Handle, TEXT(Buffer), (DWORD)_tcslen(Buffer))`. -/
def ECHO (WriteFile : WriteOutcomes) (fuel : Nat) (Handle : HANDLE) (Buffer : TSTR) : PutResult :=
  PutString WriteFile fuel Handle Buffer (Buffer.length % DWORD_MOD)

def ATTACHED : TSTR := String.toList "\r\n[ATTACHED]\r\n"
def DETACHED : TSTR := String.toList "\r\n[DETACHED]\r\n"

/-! ## `MonitorGetPath` (monitor.c 243-346) -/

/-- What the SetupDi calls and the allocator answer inside `MonitorGetPath`. -/
structure GetPathOutcomes where
  DeviceInfoSet : HANDLE
  EnumSuccess : Bool
  SizeSuccess : Bool
  SizeLastError : DWORD
  Size : DWORD
  DetailAllocated : Bool
  DetailSuccess : Bool
  DevicePath : TSTR
  Duplicated : Bool

structure GetPathResult where
  Path : PTCHAR
  trace : List Effect
  deriving DecidableEq, Repr

/-- The function `MonitorGetPath`: `Path = some p` stands for `TRUE` with `*Path = p`,
`Path = none` for `FALSE`. -/
def MonitorGetPath (Guid : GUID) (o : GetPathOutcomes) : GetPathResult :=
  let t1 := [Effect.SetupDiGetClassDevs Guid o.DeviceInfoSet]
  if o.DeviceInfoSet = INVALID_HANDLE_VALUE then
    { Path := none, trace := t1 }                                             -- fail1
  else
    let destroy := [Effect.SetupDiDestroyDeviceInfoList o.DeviceInfoSet]
    let t2 := t1 ++ [Effect.SetupDiEnumDeviceInterfaces o.DeviceInfoSet Guid o.EnumSuccess]
    if o.EnumSuccess = false then
      { Path := none, trace := t2 ++ destroy }                                -- fail2
    else
      let t3 := t2 ++ [Effect.SetupDiGetDeviceInterfaceDetail o.DeviceInfoSet 0 o.SizeSuccess]
      if o.SizeSuccess = false ∧ o.SizeLastError ≠ ERROR_INSUFFICIENT_BUFFER then
        { Path := none, trace := t3 ++ destroy }                              -- fail3
      else
        let t4 := t3 ++ [Effect.callocDetail o.Size o.DetailAllocated]
        if o.DetailAllocated = false then
          { Path := none, trace := t4 ++ destroy }                            -- fail4
        else
          let t5 := t4 ++
            [Effect.SetupDiGetDeviceInterfaceDetail o.DeviceInfoSet o.Size o.DetailSuccess]
          if o.DetailSuccess = false then
            { Path := none, trace := t5 ++ [Effect.freeDetail] ++ destroy }   -- fail5
          else
            let t6 := t5 ++ [Effect.tcsdup o.DevicePath o.Duplicated]
            if o.Duplicated = false then
              { Path := none, trace := t6 ++ [Effect.freeDetail] ++ destroy } -- fail6
            else
              { Path := some o.DevicePath, trace := t6 ++ [Effect.freeDetail] ++ destroy }

/-! ## `MonitorAdd` (monitor.c 488-593) -/

/-- What the operating system answers inside one `MonitorAdd`. -/
structure AddOutcomes where
  GetPath : GetPathOutcomes
  CreateFile : HANDLE
  WriteFile : WriteOutcomes
  fuel : Nat
  RegisterDeviceNotification : HDEVNOTIFY
  CreateEvent : HANDLE
  CreateThread : HANDLE

/-- Label `fail2` of `MonitorAdd`: `free(Path)`, then `fail1` (diagnostics only). -/
def MonitorAdd.fail2 (Path : TSTR) (Context : MONITOR_CONTEXT) (trace : List Effect) : Outcome :=
  { ctx := Context, trace := trace ++ [Effect.free (some Path)], returned := true }

/-- Label `fail3`: close the device, empty the slot, fall into `fail2`. -/
def MonitorAdd.fail3 (Path : TSTR) (Context : MONITOR_CONTEXT) (trace : List Effect) : Outcome :=
  MonitorAdd.fail2 Path { Context with Device := INVALID_HANDLE_VALUE }
    (trace ++ [Effect.CloseHandle Context.Device])

/-- Label `fail4`: free `Context->DevicePath`, unregister, fall into `fail3`. -/
def MonitorAdd.fail4 (Path : TSTR) (Context : MONITOR_CONTEXT) (trace : List Effect) : Outcome :=
  MonitorAdd.fail3 Path { Context with DevicePath := none, DeviceNotification := NULL }
    (trace ++ [Effect.free Context.DevicePath,
               Effect.UnregisterDeviceNotification Context.DeviceNotification])

/-- Label `fail5`: close the thread event, fall into `fail4`. -/
def MonitorAdd.fail5 (Path : TSTR) (Context : MONITOR_CONTEXT) (trace : List Effect) : Outcome :=
  MonitorAdd.fail4 Path { Context with ThreadEvent := NULL }
    (trace ++ [Effect.CloseHandle Context.ThreadEvent])

def MonitorAdd (GUID_XENCONS_DEVICE : GUID) (o : AddOutcomes) (Context : MONITOR_CONTEXT) :
    Outcome :=
  if Context.Device ≠ INVALID_HANDLE_VALUE then
    { ctx := Context, trace := [], returned := true }
  else
    let gp := MonitorGetPath GUID_XENCONS_DEVICE o.GetPath
    match gp.Path with
    | none => { ctx := Context, trace := gp.trace, returned := true }        -- fail1
    | some Path =>
      let c1 := { Context with Device := o.CreateFile }
      let t1 := gp.trace ++ [Effect.CreateFile Path o.CreateFile]
      if c1.Device = INVALID_HANDLE_VALUE then
        MonitorAdd.fail2 Path c1 t1
      else
        let echo := ECHO o.WriteFile o.fuel c1.Device ATTACHED
        let t2 := t1 ++ echo.trace
        if echo.returned = false then
          { ctx := c1, trace := t2, returned := false }
        else
          let c2 := { c1 with DeviceNotification := o.RegisterDeviceNotification }
          let t3 := t2 ++ [Effect.RegisterDeviceNotification c1.Service DBT_DEVTYP_HANDLE
            c1.Device 0 o.RegisterDeviceNotification]
          if c2.DeviceNotification = NULL then
            MonitorAdd.fail3 Path c2 t3
          else
            let c3 := { c2 with DevicePath := some Path }
            let c4 := { c3 with ThreadEvent := o.CreateEvent }
            let t4 := t3 ++ [Effect.CreateEvent o.CreateEvent]
            if c4.ThreadEvent = NULL then
              MonitorAdd.fail4 Path c4 t4
            else
              let c5 := { c4 with Thread := o.CreateThread }
              let t5 := t4 ++ [Effect.CreateThread o.CreateThread]
              if c5.Thread = INVALID_HANDLE_VALUE then
                MonitorAdd.fail5 Path c5 t5
              else
                { ctx := c5, trace := t5, returned := true }

/-! ## `MonitorRemove` (monitor.c 595-625) -/

/-- What the operating system answers inside one `MonitorRemove`: only the
`WriteFile` results steer it; every other result is ignored by the code. -/
structure RemoveOutcomes where
  WriteFile : WriteOutcomes
  fuel : Nat

def MonitorRemove (o : RemoveOutcomes) (Context : MONITOR_CONTEXT) : Outcome :=
  if Context.Device = INVALID_HANDLE_VALUE then
    { ctx := Context, trace := [], returned := true }
  else
    let t1 := [Effect.SetEvent Context.ThreadEvent,
               Effect.WaitForSingleObject Context.Thread,
               Effect.CloseHandle Context.ThreadEvent]
    let c1 := { Context with ThreadEvent := NULL }
    let t2 := t1 ++ [Effect.free c1.DevicePath]
    let c2 := { c1 with DevicePath := none }
    let t3 := t2 ++ [Effect.UnregisterDeviceNotification c2.DeviceNotification]
    let c3 := { c2 with DeviceNotification := NULL }
    let echo := ECHO o.WriteFile o.fuel c3.Device DETACHED
    let t4 := t3 ++ echo.trace
    if echo.returned = false then
      { ctx := c3, trace := t4, returned := false }
    else
      { ctx := { c3 with Device := INVALID_HANDLE_VALUE },
        trace := t4 ++ [Effect.CloseHandle c3.Device],
        returned := true }

/-! ## `MonitorThread` (monitor.c 348-457) -/

/-- The size computed at the top of `MonitorThread`,
`(DWORD)(_tcslen(Executable) + 2 + _tcslen(DevicePath) + 2) * sizeof (TCHAR)`,
stored in the `DWORD` `CommandLineLength`. -/
def CommandLineLength (Executable DevicePath : TSTR) : DWORD :=
  (((Executable.length + 2 + DevicePath.length + 2) % DWORD_MOD) * sizeof_TCHAR) % DWORD_MOD

/-- The text the format `TEXT("%s \"%s\"")` produces from its two string arguments. -/
def CommandLineFormat (Executable DevicePath : TSTR) : TSTR :=
  Executable ++ [Char.ofNat 32, Char.ofNat 34] ++ DevicePath ++ [Char.ofNat 34]

/-- The block `calloc(1, Size)` seen as a `TCHAR` buffer: `Size / sizeof (TCHAR)`
zero characters. -/
def callocBuffer (Size : DWORD) : TSTR :=
  List.replicate (Size / sizeof_TCHAR) NUL

/-- The call `_sntprintf(buffer, count, ...)` once the format has been expanded to `text`:
at most `count` characters are stored, and a terminating NUL is stored only
when the text is shorter than `count`.  The rest of the buffer is untouched. -/
def sntprintf (buffer : TSTR) (count : Nat) (text : TSTR) : TSTR :=
  let stored := if text.length < count then text ++ [NUL] else text.take count
  stored ++ buffer.drop stored.length

/-- The contents of the `CommandLine` buffer after the `_sntprintf` call, whose
count argument is the `DWORD` value `CommandLineLength - 1`. -/
def CommandLineBuffer (Executable DevicePath : TSTR) : TSTR :=
  sntprintf (callocBuffer (CommandLineLength Executable DevicePath))
    ((CommandLineLength Executable DevicePath + DWORD_MOD - 1) % DWORD_MOD)
    (CommandLineFormat Executable DevicePath)

/-- The C string a NUL-terminated buffer holds. -/
def cstring (buffer : TSTR) : TSTR :=
  buffer.takeWhile (fun c => c != NUL)

/-- One turn of the `again:` loop as the operating system answers it:
`CreateProcess` fails, or it succeeds with the two handles of
`PROCESS_INFORMATION` and `WaitForMultipleObjects` then returns `Object`. -/
inductive Launch where
  | failed
  | started (hProcess hThread : HANDLE) (Object : DWORD)
  deriving DecidableEq, Repr

/-- What the thread did: `exit = some code` when it returned `code`, `none` when
the supplied outcomes ran out while it was still running. -/
structure ThreadResult where
  trace : List Effect
  exit : Option DWORD
  deriving DecidableEq, Repr

/-- From label `again:` to the end of `MonitorThread`. -/
def MonitorThreadLoop (CommandLine : TSTR) (ThreadEvent : HANDLE) : List Launch → ThreadResult
  | [] => { trace := [], exit := none }
  | Launch.failed :: _ =>
    -- fail2: free(CommandLine); fail1: return 1
    { trace := [Effect.CreateProcess CommandLine false NULL NULL,
                Effect.free (some CommandLine)],
      exit := some 1 }
  | Launch.started hProcess hThread Object :: rest =>
    let t := [Effect.CreateProcess CommandLine true hProcess hThread,
              Effect.WaitForMultipleObjects [ThreadEvent, hProcess] Object]
    if Object = WAIT_OBJECT_0 then
      { trace := t ++ [Effect.ResetEvent ThreadEvent,
                       Effect.TerminateProcess hProcess 1,
                       Effect.CloseHandle hProcess,
                       Effect.CloseHandle hThread,
                       Effect.free (some CommandLine)],
        exit := some 0 }
    else if Object = WAIT_OBJECT_1 then
      let again := MonitorThreadLoop CommandLine ThreadEvent rest
      { trace := t ++ [Effect.CloseHandle hProcess, Effect.CloseHandle hThread] ++ again.trace,
        exit := again.exit }
    else
      { trace := t ++ [Effect.free (some CommandLine)], exit := some 0 }

/-- The function `MonitorThread`, given the three fields of the context it reads
(`Context->Executable`, `Context->DevicePath`, `Context->ThreadEvent`), whether
`calloc` delivered the buffer, and the launches. -/
def MonitorThread (Executable DevicePath : TSTR) (ThreadEvent : HANDLE) (Allocated : Bool)
    (launches : List Launch) : ThreadResult :=
  let t := [Effect.callocCommandLine (CommandLineLength Executable DevicePath) Allocated]
  if Allocated = false then
    { trace := t, exit := some 1 }                                            -- fail1
  else
    let again := MonitorThreadLoop (CommandLineBuffer Executable DevicePath) ThreadEvent launches
    { trace := t ++ again.trace, exit := again.exit }

/-! ## `ReportStatus` (monitor.c 193-241) and `MonitorCtrlHandlerEx` (monitor.c 627-682) -/

def ReportStatus (CurrentState Win32ExitCode WaitHint : DWORD) (Context : MONITOR_CONTEXT) :
    MONITOR_CONTEXT × List Effect :=
  let accepted :=
    if CurrentState = SERVICE_START_PENDING then 0
    else SERVICE_ACCEPT_STOP ||| SERVICE_ACCEPT_SHUTDOWN ||| SERVICE_ACCEPT_SESSIONCHANGE
  let final := CurrentState = SERVICE_RUNNING ∨ CurrentState = SERVICE_STOPPED
  let status : SERVICE_STATUS :=
    { Context.Status with
      dwCurrentState := CurrentState
      dwWin32ExitCode := Win32ExitCode
      dwWaitHint := WaitHint
      dwControlsAccepted := accepted
      dwCheckPoint := if final then 0 else Context.CheckPoint }
  let c : MONITOR_CONTEXT :=
    { Context with
      Status := status
      CheckPoint := if final then Context.CheckPoint else (Context.CheckPoint + 1) % DWORD_MOD }
  (c, [Effect.SetServiceStatus c.Service status])

/-- The event payload behind `EventData`: the header's device type, and the
field each of the two casts reads (`dbcc_classguid` of a
`DEV_BROADCAST_DEVICEINTERFACE`, `dbch_handle` of a `DEV_BROADCAST_HANDLE`). -/
structure DEV_BROADCAST where
  dbch_devicetype : DWORD
  dbcc_classguid : GUID
  dbch_handle : HANDLE
  deriving DecidableEq, Repr

structure CtrlResult where
  ctx : MONITOR_CONTEXT
  trace : List Effect
  ret : DWORD
  deriving DecidableEq, Repr

def MonitorCtrlHandlerEx (GUID_XENCONS_DEVICE : GUID) (Ctrl EventType : DWORD)
    (EventData : DEV_BROADCAST) (Context : MONITOR_CONTEXT) : CtrlResult :=
  if Ctrl = SERVICE_CONTROL_STOP ∨ Ctrl = SERVICE_CONTROL_SHUTDOWN then
    let r := ReportStatus SERVICE_STOP_PENDING NO_ERROR 0 Context
    { ctx := r.1, trace := r.2 ++ [Effect.SetEvent r.1.StopEvent], ret := NO_ERROR }
  else if Ctrl = SERVICE_CONTROL_INTERROGATE then
    let r := ReportStatus SERVICE_RUNNING NO_ERROR 0 Context
    { ctx := r.1, trace := r.2, ret := NO_ERROR }
  else if Ctrl = SERVICE_CONTROL_DEVICEEVENT then
    if EventType = DBT_DEVICEARRIVAL then
      if EventData.dbch_devicetype = DBT_DEVTYP_DEVICEINTERFACE then
        if EventData.dbcc_classguid = GUID_XENCONS_DEVICE then
          { ctx := Context, trace := [Effect.SetEvent Context.AddEvent], ret := NO_ERROR }
        else { ctx := Context, trace := [], ret := NO_ERROR }
      else { ctx := Context, trace := [], ret := NO_ERROR }
    else if EventType = DBT_DEVICEQUERYREMOVE then
      if EventData.dbch_devicetype = DBT_DEVTYP_HANDLE then
        if EventData.dbch_handle = Context.Device then
          { ctx := Context, trace := [Effect.SetEvent Context.RemoveEvent], ret := NO_ERROR }
        else { ctx := Context, trace := [], ret := NO_ERROR }
      else { ctx := Context, trace := [], ret := NO_ERROR }
    else { ctx := Context, trace := [], ret := NO_ERROR }
  else
    let r := ReportStatus SERVICE_RUNNING NO_ERROR 0 Context
    { ctx := r.1, trace := r.2, ret := ERROR_CALL_NOT_IMPLEMENTED }

/-! ## `GetExecutable` (monitor.c 684-760) -/

/-- What the registry and the allocator answer inside `GetExecutable`: the
result of `RegQueryInfoKey` with the longest value length of the key, whether
`calloc` delivered the buffer, and the result of `RegQueryValueEx` for the value
`"Executable"` with its type (`Type` in the source) and, when it is read, its
text. -/
structure ExecutableOutcomes where
  InfoError : DWORD
  MaxValueLength : DWORD
  Allocated : Bool
  ValueError : DWORD
  ValueType : DWORD
  Value : TSTR

structure GetExecutableResult where
  Success : Bool
  ctx : MONITOR_CONTEXT
  trace : List Effect
  deriving DecidableEq, Repr

/-- The function `GetExecutable`, called as `GetExecutable(&Context->Executable)`:
`*Executable` is the `Executable` field of the context.  The test
`Executable == NULL` after `calloc` looks at the address of that field, which is
never `NULL`, so label `fail2` is never the target of a jump.  After `fail3`
the field keeps the pointer that was freed. -/
def GetExecutable (o : ExecutableOutcomes) (Context : MONITOR_CONTEXT) : GetExecutableResult :=
  let t1 := [Effect.RegQueryInfoKey Context.ParametersKey o.InfoError o.MaxValueLength]
  if o.InfoError ≠ ERROR_SUCCESS then
    { Success := false, ctx := Context, trace := t1 }                         -- fail1
  else
    let ExecutableLength := (o.MaxValueLength + sizeof_TCHAR) % DWORD_MOD
    let c1 := { Context with
      Executable := if o.Allocated = true then some (callocBuffer ExecutableLength) else none }
    let t2 := t1 ++ [Effect.callocExecutable ExecutableLength o.Allocated,
                     Effect.RegQueryValueEx c1.ParametersKey o.ValueError o.ValueType]
    if o.ValueError ≠ ERROR_SUCCESS then
      { Success := false, ctx := c1, trace := t2 ++ [Effect.free c1.Executable] }   -- fail3
    else if o.ValueType ≠ REG_SZ then
      { Success := false, ctx := c1, trace := t2 ++ [Effect.free c1.Executable] }   -- fail4
    else
      { Success := true,
        ctx := { c1 with Executable := if o.Allocated = true then some o.Value else none },
        trace := t2 }

/-! ## `MonitorMain` (monitor.c 762-956) -/

/-- One return of the `WaitForMultipleObjects` of the reaction loop, with what
the operating system answers during the reaction it triggers (`add` for
`MonitorAdd`, `remove` for `MonitorRemove`, also the one at label `done`). -/
structure Wake where
  Object : DWORD
  add : AddOutcomes
  remove : RemoveOutcomes

/-- What the operating system answers during the start-up of `MonitorMain`;
`LastError` is what `GetLastError()` returns at label `fail4`. -/
structure MainOutcomes where
  OpenKeyError : DWORD
  ParametersKey : HANDLE
  Service : HANDLE
  EventLog : HANDLE
  StopEvent : HANDLE
  AddEvent : HANDLE
  RemoveEvent : HANDLE
  Executable : ExecutableOutcomes
  LastError : DWORD
  InterfaceNotification : HDEVNOTIFY

/-- Label `done` of `MonitorMain`, entered with the calls made so far. -/
def MonitorMain.done (o : RemoveOutcomes) (Context : MONITOR_CONTEXT) (trace : List Effect) :
    Outcome :=
  let r := MonitorRemove o Context
  if r.returned = false then
    { ctx := r.ctx, trace := trace ++ r.trace, returned := false }
  else
    let t := trace ++ r.trace ++
      [Effect.UnregisterDeviceNotification r.ctx.InterfaceNotification,
       Effect.free r.ctx.Executable,
       Effect.CloseHandle r.ctx.RemoveEvent,
       Effect.CloseHandle r.ctx.AddEvent,
       Effect.CloseHandle r.ctx.StopEvent]
    let s := ReportStatus SERVICE_STOPPED NO_ERROR 0 r.ctx
    { ctx := s.1,
      trace := t ++ s.2 ++
        [Effect.DeregisterEventSource s.1.EventLog, Effect.CloseHandle s.1.ParametersKey],
      returned := true }

/-- The `for (;;)` loop of `MonitorMain` up to the return after label `done`.
When the wakes run out the loop is still waiting. -/
def MonitorMainLoop (GUID_XENCONS_DEVICE : GUID) : MONITOR_CONTEXT → List Wake → Outcome
  | Context, [] => { ctx := Context, trace := [], returned := false }
  | Context, w :: ws =>
    let wait := Effect.WaitForMultipleObjects
      [Context.StopEvent, Context.AddEvent, Context.RemoveEvent] w.Object
    if w.Object = WAIT_OBJECT_0 then
      MonitorMain.done w.remove Context [wait, Effect.ResetEvent Context.StopEvent]
    else if w.Object = WAIT_OBJECT_1 then
      let r := MonitorAdd GUID_XENCONS_DEVICE w.add Context
      let t := wait :: Effect.ResetEvent Context.AddEvent :: r.trace
      if r.returned = false then
        { ctx := r.ctx, trace := t, returned := false }
      else
        let rest := MonitorMainLoop GUID_XENCONS_DEVICE r.ctx ws
        { rest with trace := t ++ rest.trace }
    else if w.Object = WAIT_OBJECT_2 then
      let r := MonitorRemove w.remove Context
      let t := wait :: Effect.ResetEvent Context.RemoveEvent :: r.trace
      if r.returned = false then
        { ctx := r.ctx, trace := t, returned := false }
      else
        let rest := MonitorMainLoop GUID_XENCONS_DEVICE r.ctx ws
        { rest with trace := t ++ rest.trace }
    else
      let rest := MonitorMainLoop GUID_XENCONS_DEVICE Context ws
      { rest with trace := wait :: rest.trace }

/-- Labels `fail2` and `fail3` of `MonitorMain`: close the parameters key, then
`fail1` (diagnostics only). -/
def MonitorMain.fail2 (Context : MONITOR_CONTEXT) (trace : List Effect) : Outcome :=
  { ctx := Context, trace := trace ++ [Effect.CloseHandle Context.ParametersKey],
    returned := true }

/-- Label `fail4`: report `SERVICE_STOPPED` with the last error, deregister the
event source, fall into `fail3`. -/
def MonitorMain.fail4 (LastError : DWORD) (Context : MONITOR_CONTEXT) (trace : List Effect) :
    Outcome :=
  let s := ReportStatus SERVICE_STOPPED LastError 0 Context
  MonitorMain.fail2 s.1 (trace ++ s.2 ++ [Effect.DeregisterEventSource s.1.EventLog])

/-- Label `fail5`: close the stop event, fall into `fail4`. -/
def MonitorMain.fail5 (LastError : DWORD) (Context : MONITOR_CONTEXT) (trace : List Effect) :
    Outcome :=
  MonitorMain.fail4 LastError Context (trace ++ [Effect.CloseHandle Context.StopEvent])

/-- Label `fail6`: close the add event, fall into `fail5`. -/
def MonitorMain.fail6 (LastError : DWORD) (Context : MONITOR_CONTEXT) (trace : List Effect) :
    Outcome :=
  MonitorMain.fail5 LastError Context (trace ++ [Effect.CloseHandle Context.AddEvent])

/-- Label `fail7`: close the remove event, fall into `fail6`. -/
def MonitorMain.fail7 (LastError : DWORD) (Context : MONITOR_CONTEXT) (trace : List Effect) :
    Outcome :=
  MonitorMain.fail6 LastError Context (trace ++ [Effect.CloseHandle Context.RemoveEvent])

/-- Label `fail8`: free the executable path, fall into `fail7`. -/
def MonitorMain.fail8 (LastError : DWORD) (Context : MONITOR_CONTEXT) (trace : List Effect) :
    Outcome :=
  MonitorMain.fail7 LastError Context (trace ++ [Effect.free Context.Executable])

def MonitorMain (GUID_XENCONS_DEVICE : GUID) (o : MainOutcomes) (wakes : List Wake)
    (Context : MONITOR_CONTEXT) : Outcome :=
  let t1 := [Effect.RegOpenKeyEx o.OpenKeyError o.ParametersKey]
  if o.OpenKeyError ≠ ERROR_SUCCESS then
    { ctx := Context, trace := t1, returned := true }                         -- fail1
  else
    let c1 := { Context with ParametersKey := o.ParametersKey }
    let c2 := { c1 with Service := o.Service }
    let t2 := t1 ++ [Effect.RegisterServiceCtrlHandlerEx o.Service]
    if c2.Service = NULL then
      MonitorMain.fail2 c2 t2
    else
      let c3 := { c2 with EventLog := o.EventLog }
      let t3 := t2 ++ [Effect.RegisterEventSource o.EventLog]
      if c3.EventLog = NULL then
        MonitorMain.fail2 c3 t3                                               -- fail3
      else
        let c4 := { c3 with Status := { c3.Status with
          dwServiceType := SERVICE_WIN32_OWN_PROCESS, dwServiceSpecificExitCode := 0 } }
        let s := ReportStatus SERVICE_START_PENDING NO_ERROR 3000 c4
        let c5 := { s.1 with StopEvent := o.StopEvent }
        let t5 := t3 ++ s.2 ++ [Effect.CreateEvent o.StopEvent]
        if c5.StopEvent = NULL then
          MonitorMain.fail4 o.LastError c5 t5
        else
          let c6 := { c5 with AddEvent := o.AddEvent }
          let t6 := t5 ++ [Effect.CreateEvent o.AddEvent]
          if c6.AddEvent = NULL then
            MonitorMain.fail5 o.LastError c6 t6
          else
            let c7 := { c6 with RemoveEvent := o.RemoveEvent }
            let t7 := t6 ++ [Effect.CreateEvent o.RemoveEvent]
            if c7.RemoveEvent = NULL then
              MonitorMain.fail6 o.LastError c7 t7
            else
              let ge := GetExecutable o.Executable c7
              let t8 := t7 ++ ge.trace
              if ge.Success = false then
                MonitorMain.fail7 o.LastError ge.ctx t8
              else
                let c9 := { ge.ctx with Device := INVALID_HANDLE_VALUE }
                let c10 := { c9 with InterfaceNotification := o.InterfaceNotification }
                let t10 := t8 ++ [Effect.RegisterDeviceNotification c9.Service
                  DBT_DEVTYP_DEVICEINTERFACE 0 GUID_XENCONS_DEVICE o.InterfaceNotification]
                if c10.InterfaceNotification = NULL then
                  MonitorMain.fail8 o.LastError c10 t10
                else
                  let s2 := ReportStatus SERVICE_RUNNING NO_ERROR 0 c10
                  let t11 := t10 ++ [Effect.SetEvent c10.AddEvent] ++ s2.2
                  let loop := MonitorMainLoop GUID_XENCONS_DEVICE s2.1 wakes
                  { loop with trace := t11 ++ loop.trace }

/-! ## Sequences of add and remove reactions -/

/-- One reaction of the loop in `MonitorMain`, with what the operating system
answers during it. -/
inductive Reaction where
  | add (o : AddOutcomes)
  | remove (o : RemoveOutcomes)

def react (GUID_XENCONS_DEVICE : GUID) (Context : MONITOR_CONTEXT) : Reaction → Outcome
  | Reaction.add o => MonitorAdd GUID_XENCONS_DEVICE o Context
  | Reaction.remove o => MonitorRemove o Context

/-- Run reactions one after the other on the single loop thread.  A reaction
that does not return keeps the thread, so nothing after it runs. -/
def runReactions (GUID_XENCONS_DEVICE : GUID) : MONITOR_CONTEXT → List Reaction → Outcome
  | Context, [] => { ctx := Context, trace := [], returned := true }
  | Context, r :: rs =>
    let first := react GUID_XENCONS_DEVICE Context r
    if first.returned = false then first
    else
      let rest := runReactions GUID_XENCONS_DEVICE first.ctx rs
      { rest with trace := first.trace ++ rest.trace }

/-! ## Resource accounting over a trace -/

/-- The resources a trace has acquired and not yet given back: the device
handles `CreateFile` returned and `CloseHandle` has not closed, and the threads
`CreateThread` started and `WaitForSingleObject` has not joined.
`CreateFile` fails by returning `INVALID_HANDLE_VALUE`.  `CreateThread` fails by
returning `NULL`; `INVALID_HANDLE_VALUE`, the other value Win32 uses for "no
handle", is never the handle of a thread, so neither value stands for a started
thread.  A wait on a thread handle with no timeout returns when that thread has
ended. -/
structure Live where
  devices : List HANDLE
  threads : List HANDLE
  deriving DecidableEq, Repr

def Live.step (g : Live) : Effect → Live
  | Effect.CreateFile _ h =>
    if h = INVALID_HANDLE_VALUE then g else { g with devices := h :: g.devices }
  | Effect.CloseHandle h => { g with devices := g.devices.erase h }
  | Effect.CreateThread h =>
    if h = NULL ∨ h = INVALID_HANDLE_VALUE then g else { g with threads := h :: g.threads }
  | Effect.WaitForSingleObject h => { g with threads := g.threads.erase h }
  | _ => g

/-- The live resources after a whole trace, starting from none. -/
def Live.after (trace : List Effect) : Live :=
  trace.foldl Live.step { devices := [], threads := [] }

/-- Both counts of live resources are at most one. -/
def Live.Bounded (g : Live) : Prop :=
  g.devices.length ≤ 1 ∧ g.threads.length ≤ 1

/-- The state `g` is bounded, and if the next call closes a device handle that
is still open then no started thread is unjoined. -/
def Live.Sound (g : Live) (next : Option Effect) : Prop :=
  g.Bounded ∧ ∀ h, next = some (Effect.CloseHandle h) → h ∈ g.devices → g.threads = []

/-- Every point of the trace `t`, entered with live resources `g`, is sound. -/
def SafeFrom (g : Live) (t : List Effect) : Prop :=
  ∀ n, (List.foldl Live.step g (t.take n)).Sound (t.get? n)

/-- An effect that neither acquires nor releases an accounted resource. -/
def Effect.quiet : Effect → Bool
  | Effect.CreateFile _ _ => false
  | Effect.CloseHandle _ => false
  | Effect.CreateThread _ => false
  | Effect.WaitForSingleObject _ => false
  | _ => true

/-- What the loop thread's context and the accounting agree on between reactions. -/
def Inv (c : MONITOR_CONTEXT) (g : Live) : Prop :=
  (g.devices = [] ∨ g.devices = [c.Device]) ∧
  (g.threads = [] ∨ g.threads = [c.Thread]) ∧
  (c.Device = INVALID_HANDLE_VALUE → g.devices = [] ∧ g.threads = [])

/-! ## Sample inputs -/

/-- A context right after start-up: no Session, device slot empty. -/
def idleContext : MONITOR_CONTEXT :=
  { Status := { dwServiceType := 16, dwCurrentState := SERVICE_RUNNING, dwControlsAccepted := 133,
                dwWin32ExitCode := 0, dwServiceSpecificExitCode := 0, dwCheckPoint := 0,
                dwWaitHint := 0 }
    Service := 100, ParametersKey := 104, EventLog := 108
    StopEvent := 112, AddEvent := 116, RemoveEvent := 120
    Executable := some (String.toList "C:\\xencons\\tty.exe")
    InterfaceNotification := 124
    DevicePath := none, DeviceNotification := NULL
    Device := INVALID_HANDLE_VALUE, ThreadEvent := NULL, Thread := NULL
    CheckPoint := 2 }

/-- A `WriteFile` that takes every byte it is offered. -/
def writeAll : WriteOutcomes := fun _ n => { Success := true, Written := n }

/-- A `WriteFile` that takes half of what it is offered, rounded up. -/
def writeHalf : WriteOutcomes := fun _ n => { Success := true, Written := (n + 1) / 2 }

/-- A `WriteFile` that reports success and takes no byte at all. -/
def writeNothing : WriteOutcomes := fun _ _ => { Success := true, Written := 0 }

def pathFound : GetPathOutcomes :=
  { DeviceInfoSet := 200, EnumSuccess := true, SizeSuccess := false,
    SizeLastError := ERROR_INSUFFICIENT_BUFFER, Size := 64, DetailAllocated := true,
    DetailSuccess := true, DevicePath := String.toList "\\\\?\\xencons#0", Duplicated := true }

/-- Every call of `MonitorAdd` succeeds. -/
def addSucceeds : AddOutcomes :=
  { GetPath := pathFound, CreateFile := 300, WriteFile := writeAll, fuel := 32,
    RegisterDeviceNotification := 304, CreateEvent := 308, CreateThread := 312 }

/-- Every call of `MonitorAdd` succeeds except `CreateThread`, which fails the
way Win32 documents: it returns `NULL`. -/
def addThreadFails : AddOutcomes :=
  { addSucceeds with CreateThread := NULL }

/-- The device opens but the query-remove registration is refused. -/
def addRegisterFails : AddOutcomes :=
  { addSucceeds with RegisterDeviceNotification := NULL }

def removeWrites : RemoveOutcomes :=
  { WriteFile := writeAll, fuel := 32 }

/-- A context holding a Session, as `MonitorAdd` leaves it when every call succeeds. -/
def attachedContext : MONITOR_CONTEXT :=
  { idleContext with
    DevicePath := some (String.toList "\\\\?\\xencons#0"), DeviceNotification := 304
    Device := 300, ThreadEvent := 308, Thread := 312 }

/-- The cancellation event cannot be created: `CreateEvent` returns `NULL`. -/
def addEventFails : AddOutcomes :=
  { addSucceeds with CreateEvent := NULL }

/-- The context before `MonitorMain` has run: the zero-filled static. -/
def zeroContext : MONITOR_CONTEXT :=
  { Status := { dwServiceType := 0, dwCurrentState := 0, dwControlsAccepted := 0,
                dwWin32ExitCode := 0, dwServiceSpecificExitCode := 0, dwCheckPoint := 0,
                dwWaitHint := 0 }
    Service := NULL, ParametersKey := NULL, EventLog := NULL
    StopEvent := NULL, AddEvent := NULL, RemoveEvent := NULL
    Executable := none, InterfaceNotification := NULL
    DevicePath := none, DeviceNotification := NULL
    Device := NULL, ThreadEvent := NULL, Thread := NULL
    CheckPoint := 1 }

/-- The parameters key holds the executable path as a string. -/
def executableFound : ExecutableOutcomes :=
  { InfoError := ERROR_SUCCESS, MaxValueLength := 20, Allocated := true,
    ValueError := ERROR_SUCCESS, ValueType := REG_SZ,
    Value := String.toList "C:\\xencons\\tty.exe" }

/-- The parameters key has no value named `Executable`. -/
def executableMissing : ExecutableOutcomes :=
  { executableFound with ValueError := ERROR_FILE_NOT_FOUND }

/-- The value `Executable` is there but is a number, not a string. -/
def executableWrongType : ExecutableOutcomes :=
  { executableFound with ValueType := REG_DWORD }

/-- Every call of the start-up succeeds. -/
def startupSucceeds : MainOutcomes :=
  { OpenKeyError := ERROR_SUCCESS, ParametersKey := 104, Service := 100, EventLog := 108,
    StopEvent := 112, AddEvent := 116, RemoveEvent := 120, Executable := executableFound,
    LastError := 0, InterfaceNotification := 124 }

/-- Every call of the start-up succeeds up to `GetExecutable`, which finds no
value named `Executable`. -/
def startupNoExecutable : MainOutcomes :=
  { startupSucceeds with Executable := executableMissing, LastError := ERROR_FILE_NOT_FOUND }

/-- The loop wakes for an arrival; every call of `MonitorAdd` succeeds. -/
def wakeAdd : Wake := { Object := WAIT_OBJECT_1, add := addSucceeds, remove := removeWrites }

/-- The loop wakes for a query-remove. -/
def wakeRemove : Wake := { Object := WAIT_OBJECT_2, add := addSucceeds, remove := removeWrites }

/-- The loop wakes for the stop signal. -/
def wakeStop : Wake := { Object := WAIT_OBJECT_0, add := addSucceeds, remove := removeWrites }

/-- The teardown order as the specification words it: cancel, join, release
the notification registration, close the device handle, free the path. -/
def SpecTeardown (Context : MONITOR_CONTEXT) : List Effect :=
  [Effect.SetEvent Context.ThreadEvent,
   Effect.WaitForSingleObject Context.Thread,
   Effect.UnregisterDeviceNotification Context.DeviceNotification,
   Effect.CloseHandle Context.Device,
   Effect.free Context.DevicePath]

def sampleExecutable : TSTR := String.toList "C:\\xencons\\tty.exe"
def sampleDevicePath : TSTR := String.toList "\\\\?\\xencons#0"

/-! ## Reading traces -/

/-- A turn of the `again:` loop whose process ran and exited by itself:
`CreateProcess` succeeded with handles `p` and the wait returned `WAIT_OBJECT_1`. -/
def exited (p : HANDLE × HANDLE) : Launch :=
  Launch.started p.1 p.2 WAIT_OBJECT_1

/-- The calls of consecutive turns whose processes exited by themselves, all
launched with the command line `cmd`. -/
def exitTurns (cmd : TSTR) (ThreadEvent : HANDLE) : List (HANDLE × HANDLE) → List Effect
  | [] => []
  | p :: ps =>
    [Effect.CreateProcess cmd true p.1 p.2,
     Effect.WaitForMultipleObjects [ThreadEvent, p.1] WAIT_OBJECT_1,
     Effect.CloseHandle p.1,
     Effect.CloseHandle p.2] ++ exitTurns cmd ThreadEvent ps

/-- The command lines of the `CreateProcess` calls of a trace, in order. -/
def launchedCommandLines : List Effect → List TSTR
  | [] => []
  | Effect.CreateProcess cmd _ _ _ :: t => cmd :: launchedCommandLines t
  | _ :: t => launchedCommandLines t

/-- The command line as the specification words it: the executable and the
device path both between double quotes, one space between them. -/
def SpecCommandLine (Executable DevicePath : TSTR) : TSTR :=
  [Char.ofNat 34] ++ Executable ++ [Char.ofNat 34, Char.ofNat 32, Char.ofNat 34] ++
    DevicePath ++ [Char.ofNat 34]

/-- Bytes a `WriteFile` call reported written (0 for any other call). -/
def Effect.written : Effect → DWORD
  | Effect.WriteFile _ _ _ _ _ w => w
  | _ => 0

/-- Whether a `WriteFile` call reported success (`false` for any other call). -/
def Effect.succeeded : Effect → Bool
  | Effect.WriteFile _ _ _ _ s _ => s
  | _ => false

/-- The calls `MonitorMain` makes while it sets up and while it unwinds a failed
start-up, other than the registration for device notifications: registry
access, the registrations with the service manager and the event log, event
creation, status reports, `CloseHandle` and `free`. -/
def Effect.startupCall : Effect → Bool
  | Effect.RegOpenKeyEx _ _ => true
  | Effect.RegisterServiceCtrlHandlerEx _ => true
  | Effect.RegisterEventSource _ => true
  | Effect.DeregisterEventSource _ => true
  | Effect.RegQueryInfoKey _ _ _ => true
  | Effect.callocExecutable _ _ => true
  | Effect.RegQueryValueEx _ _ _ => true
  | Effect.CreateEvent _ => true
  | Effect.SetServiceStatus _ _ => true
  | Effect.CloseHandle _ => true
  | Effect.free _ => true
  | _ => false

/-! ## Auxiliary facts about traces and accounting -/

theorem Live_step_quiet (g : Live) (e : Effect) (h : e.quiet = true) : g.step e = g := by
  cases e <;> simp_all [Effect.quiet, Live.step]

theorem foldl_quiet (t : List Effect) (h : ∀ e ∈ t, e.quiet = true) (g : Live) :
    List.foldl Live.step g t = g := by
  induction t generalizing g with
  | nil => rfl
  | cons e t ih =>
    simp only [List.foldl_cons]
    rw [Live_step_quiet g e (h e (List.mem_cons_self e t))]
    exact ih (fun x hx => h x (List.mem_cons_of_mem e hx)) g

theorem SafeFrom_nil (g : Live) : SafeFrom g [] ↔ g.Bounded := by
  simp [SafeFrom, Live.Sound]

theorem SafeFrom_cons (g : Live) (e : Effect) (t : List Effect) :
    SafeFrom g (e :: t) ↔ g.Sound (some e) ∧ SafeFrom (g.step e) t := by
  constructor
  · intro h
    refine ⟨by simpa using h 0, fun n => ?_⟩
    simpa using h (n + 1)
  · rintro ⟨h0, h⟩ n
    cases n with
    | zero => simpa using h0
    | succ n => simpa using h n

theorem SafeFrom_bounded {g : Live} {t : List Effect} (h : SafeFrom g t) : g.Bounded := by
  have := (h 0).1
  simpa using this

theorem SafeFrom_append (g : Live) (a b : List Effect) :
    SafeFrom g (a ++ b) ↔ SafeFrom g a ∧ SafeFrom (List.foldl Live.step g a) b := by
  induction a generalizing g with
  | nil =>
    simp only [List.nil_append, List.foldl_nil, SafeFrom_nil, iff_and_self]
    exact fun h => SafeFrom_bounded h
  | cons e a ih =>
    simp only [List.cons_append, SafeFrom_cons, ih, List.foldl_cons, and_assoc]

theorem SafeFrom_quiet (g : Live) (t : List Effect) (h : ∀ e ∈ t, e.quiet = true) :
    SafeFrom g t ↔ g.Bounded := by
  constructor
  · exact fun hs => SafeFrom_bounded hs
  · intro hb n
    rw [foldl_quiet _ (fun e he => h e (List.mem_of_mem_take he))]
    refine ⟨hb, fun x hx _ => ?_⟩
    have hmem : Effect.CloseHandle x ∈ t := List.get?_mem hx
    have := h _ hmem
    simp [Effect.quiet] at this

theorem PutStringLoop_quiet (W : WriteOutcomes) (H : HANDLE) (B : TSTR) (L : DWORD)
    (fuel k : Nat) (Offset : DWORD) :
    ∀ e ∈ (PutStringLoop W H B L fuel k Offset).trace, e.quiet = true := by
  induction fuel generalizing k Offset with
  | zero => simp [PutStringLoop]
  | succ fuel ih =>
    unfold PutStringLoop
    by_cases h1 : Offset < L
    · by_cases h2 : (W k (L - Offset)).Success = false
      · simp [h1, h2, Effect.quiet]
      · simp only [h1, h2, if_true, if_false]
        intro e he
        rcases List.mem_cons.mp he with rfl | he
        · rfl
        · exact ih _ _ e he
    · simp [h1]

theorem ECHO_quiet (W : WriteOutcomes) (fuel : Nat) (H : HANDLE) (B : TSTR) :
    ∀ e ∈ (ECHO W fuel H B).trace, e.quiet = true :=
  PutStringLoop_quiet W H B _ fuel 0 0

theorem MonitorGetPath_quiet (G : GUID) (o : GetPathOutcomes) :
    ∀ e ∈ (MonitorGetPath G o).trace, e.quiet = true := by
  unfold MonitorGetPath
  split_ifs <;> simp [Effect.quiet]

theorem Inv_bounded {c : MONITOR_CONTEXT} {g : Live} (h : Inv c g) : g.Bounded := by
  rcases h with ⟨hd | hd, ht | ht, _⟩ <;> simp [Live.Bounded, hd, ht]

theorem MonitorAdd_safe (G : GUID) (o : AddOutcomes) (c : MONITOR_CONTEXT) (g : Live)
    (hinv : Inv c g) :
    SafeFrom g (MonitorAdd G o c).trace ∧
      Inv (MonitorAdd G o c).ctx (List.foldl Live.step g (MonitorAdd G o c).trace) := by
  by_cases hd : c.Device = INVALID_HANDLE_VALUE
  · obtain ⟨hgd, hgt⟩ := hinv.2.2 hd
    have hg : g = { devices := [], threads := [] } := by
      cases g; simp_all
    subst hg
    have hq1 := MonitorGetPath_quiet G o.GetPath
    have hq2 := ECHO_quiet o.WriteFile o.fuel o.CreateFile ATTACHED
    unfold MonitorAdd
    simp only [hd, ne_eq, not_true_eq_false, if_false]
    rcases hgp : (MonitorGetPath G o.GetPath).Path with _ | Path
    · simp only [SafeFrom_quiet _ _ hq1, foldl_quiet _ hq1]
      exact ⟨by simp [Live.Bounded], by simp [Inv]⟩
    · simp only []
      split_ifs
      all_goals
        simp only [MonitorAdd.fail5, MonitorAdd.fail4, MonitorAdd.fail3, MonitorAdd.fail2,
          SafeFrom_append, SafeFrom_cons, SafeFrom_nil, SafeFrom_quiet _ _ hq1,
          SafeFrom_quiet _ _ hq2, foldl_quiet _ hq1, foldl_quiet _ hq2, List.foldl_append,
          List.foldl_cons, List.foldl_nil, Live.step, Live.Sound, Live.Bounded, Inv, List.append_assoc]
        simp_all [List.erase_cons]
        try (split_ifs <;> simp_all)
  · simp only [MonitorAdd, hd, ne_eq, not_false_eq_true, if_true, SafeFrom_nil, List.foldl_nil]
    exact ⟨Inv_bounded hinv, hinv⟩

theorem MonitorRemove_safe (o : RemoveOutcomes) (c : MONITOR_CONTEXT) (g : Live)
    (hinv : Inv c g) :
    SafeFrom g (MonitorRemove o c).trace ∧
      Inv (MonitorRemove o c).ctx (List.foldl Live.step g (MonitorRemove o c).trace) := by
  by_cases hd : c.Device = INVALID_HANDLE_VALUE
  · simp only [MonitorRemove, hd, if_true, SafeFrom_nil, List.foldl_nil]
    exact ⟨Inv_bounded hinv, by simpa [hd] using hinv⟩
  · have hq := ECHO_quiet o.WriteFile o.fuel c.Device DETACHED
    have hb := Inv_bounded hinv
    unfold MonitorRemove
    simp only [hd, if_false]
    split_ifs
    all_goals
      simp only [SafeFrom_append, SafeFrom_cons, SafeFrom_nil, SafeFrom_quiet _ _ hq,
        foldl_quiet _ hq, List.foldl_append, List.foldl_cons, List.foldl_nil, Live.step,
        Live.Sound, Live.Bounded, Inv, List.append_assoc, List.cons_append, List.nil_append]
      rcases hinv with ⟨hgd | hgd, hgt | hgt, _⟩ <;> simp [hgd, hgt, List.erase_cons] <;>
        (try split_ifs) <;> simp_all

theorem runReactions_safe (G : GUID) (rs : List Reaction) (c : MONITOR_CONTEXT) (g : Live)
    (hinv : Inv c g) :
    SafeFrom g (runReactions G c rs).trace := by
  induction rs generalizing c g with
  | nil => simpa [runReactions, SafeFrom_nil] using Inv_bounded hinv
  | cons r rs ih =>
    have hstep : SafeFrom g (react G c r).trace ∧
        Inv (react G c r).ctx (List.foldl Live.step g (react G c r).trace) := by
      cases r with
      | add o => exact MonitorAdd_safe G o c g hinv
      | remove o => exact MonitorRemove_safe o c g hinv
    unfold runReactions
    by_cases hr : (react G c r).returned = false
    · simpa [hr] using hstep.1
    · rw [if_neg hr]
      simp only [SafeFrom_append]
      exact ⟨hstep.1, ih _ _ hstep.2⟩

theorem MonitorAdd_attached (G : GUID) (o : AddOutcomes) (c : MONITOR_CONTEXT)
    (h : c.Device ≠ INVALID_HANDLE_VALUE) :
    MonitorAdd G o c = { ctx := c, trace := [], returned := true } := by
  unfold MonitorAdd
  rw [if_pos h]

theorem PutStringLoop_writes (W : WriteOutcomes) (H : HANDLE) (B : TSTR) (L : DWORD)
    (fuel k : Nat) (Offset : DWORD) :
    ∀ e ∈ (PutStringLoop W H B L fuel k Offset).trace,
      ∃ off n s w, e = Effect.WriteFile H B off n s w := by
  induction fuel generalizing k Offset with
  | zero => simp [PutStringLoop]
  | succ fuel ih =>
    unfold PutStringLoop
    by_cases h1 : Offset < L
    · by_cases h2 : (W k (L - Offset)).Success = false
      · simp [h1, h2]
      · simp only [h1, h2, if_true, if_false]
        intro e he
        rcases List.mem_cons.mp he with rfl | he
        · exact ⟨_, _, _, _, rfl⟩
        · exact ih _ _ e he
    · simp [h1]

theorem MonitorRemove_trace (o : RemoveOutcomes) (c : MONITOR_CONTEXT)
    (h : c.Device ≠ INVALID_HANDLE_VALUE) :
    (MonitorRemove o c).trace =
      [Effect.SetEvent c.ThreadEvent,
       Effect.WaitForSingleObject c.Thread,
       Effect.CloseHandle c.ThreadEvent,
       Effect.free c.DevicePath,
       Effect.UnregisterDeviceNotification c.DeviceNotification] ++
      (ECHO o.WriteFile o.fuel c.Device DETACHED).trace ++
      (if (ECHO o.WriteFile o.fuel c.Device DETACHED).returned = true
        then [Effect.CloseHandle c.Device] else []) := by
  unfold MonitorRemove
  rw [if_neg h]
  by_cases hr : (ECHO o.WriteFile o.fuel c.Device DETACHED).returned = false
  · simp [hr]
  · simp [hr]

theorem MonitorThreadLoop_closes_own (cmd : TSTR) (ev : HANDLE) (launches : List Launch)
    (h : HANDLE) (hm : Effect.CloseHandle h ∈ (MonitorThreadLoop cmd ev launches).trace) :
    ∃ hP hT obj, Launch.started hP hT obj ∈ launches ∧ (h = hP ∨ h = hT) := by
  induction launches with
  | nil => simp [MonitorThreadLoop] at hm
  | cons l rest ih =>
    cases l with
    | failed => simp [MonitorThreadLoop] at hm
    | started hP hT obj =>
      unfold MonitorThreadLoop at hm
      split_ifs at hm
      · simp only [List.cons_append, List.nil_append, List.mem_cons, Effect.CloseHandle.injEq,
          reduceCtorEq, false_or, List.mem_singleton, or_false, List.not_mem_nil] at hm
        exact ⟨hP, hT, obj, List.mem_cons_self _ _, hm⟩
      · simp only [List.cons_append, List.nil_append, List.mem_cons, Effect.CloseHandle.injEq,
          reduceCtorEq, false_or, List.mem_append] at hm
        rcases hm with hm | hm | hm
        · exact ⟨hP, hT, obj, List.mem_cons_self _ _, Or.inl hm⟩
        · exact ⟨hP, hT, obj, List.mem_cons_self _ _, Or.inr hm⟩
        · obtain ⟨a, b, c, hmem, hab⟩ := ih hm
          exact ⟨a, b, c, List.mem_cons_of_mem _ hmem, hab⟩
      · simp at hm

/-- The only handle `MonitorAdd` ever registers for query-remove events is the
handle it has just opened, which is not `INVALID_HANDLE_VALUE`. -/
theorem MonitorAdd_registers_open_handle (G : GUID) (o : AddOutcomes) (c : MONITOR_CONTEXT)
    (R : HANDLE) (ty : DWORD) (h : HANDLE) (g : GUID) (n : HDEVNOTIFY)
    (hm : Effect.RegisterDeviceNotification R ty h g n ∈ (MonitorAdd G o c).trace) :
    h ≠ INVALID_HANDLE_VALUE := by
  have hq1 := MonitorGetPath_quiet G o.GetPath
  have hw := PutStringLoop_writes o.WriteFile o.CreateFile ATTACHED
    (ATTACHED.length % DWORD_MOD) o.fuel 0 0
  have hgp : Effect.RegisterDeviceNotification R ty h g n ∉ (MonitorGetPath G o.GetPath).trace := by
    unfold MonitorGetPath
    split_ifs <;> simp
  have hecho : Effect.RegisterDeviceNotification R ty h g n ∉
      (ECHO o.WriteFile o.fuel o.CreateFile ATTACHED).trace := by
    intro hmem
    obtain ⟨_, _, _, _, he⟩ := hw _ hmem
    cases he
  unfold MonitorAdd at hm
  by_cases hd : c.Device ≠ INVALID_HANDLE_VALUE
  · simp [hd] at hm
  · rw [if_neg hd] at hm
    rcases hp : (MonitorGetPath G o.GetPath).Path with _ | Path
    · simp only [hp] at hm
      exact absurd hm hgp
    · simp only [hp] at hm
      split_ifs at hm with h1 h2 h3 h4 h5 <;>
        simp [MonitorAdd.fail2, MonitorAdd.fail3, MonitorAdd.fail4, MonitorAdd.fail5,
          hgp, hecho] at hm <;>
        (obtain ⟨-, -, rfl, -⟩ := hm; exact h1)

theorem MonitorThreadLoop_exits (cmd : TSTR) (ev : HANDLE) (exits : List (HANDLE × HANDLE))
    (rest : List Launch) :
    MonitorThreadLoop cmd ev (exits.map exited ++ rest) =
      { trace := exitTurns cmd ev exits ++ (MonitorThreadLoop cmd ev rest).trace,
        exit := (MonitorThreadLoop cmd ev rest).exit } := by
  induction exits with
  | nil => simp [exitTurns]
  | cons p ps ih =>
    have h1 : ¬ (WAIT_OBJECT_1 = WAIT_OBJECT_0) := by decide
    simp only [List.map_cons, List.cons_append, exited, MonitorThreadLoop, h1, if_false, if_true,
      exitTurns]
    rw [show (List.map exited ps).append rest = List.map exited ps ++ rest from rfl, ih]
    simp

theorem MonitorThread_exits (E P : TSTR) (ev : HANDLE) (exits : List (HANDLE × HANDLE))
    (rest : List Launch) :
    MonitorThread E P ev true (exits.map exited ++ rest) =
      { trace := Effect.callocCommandLine (CommandLineLength E P) true ::
          (exitTurns (CommandLineBuffer E P) ev exits ++
            (MonitorThreadLoop (CommandLineBuffer E P) ev rest).trace),
        exit := (MonitorThreadLoop (CommandLineBuffer E P) ev rest).exit } := by
  unfold MonitorThread
  rw [MonitorThreadLoop_exits]
  simp

theorem launchedCommandLines_append (a b : List Effect) :
    launchedCommandLines (a ++ b) = launchedCommandLines a ++ launchedCommandLines b := by
  induction a with
  | nil => rfl
  | cons e a ih => cases e <;> simp [launchedCommandLines, ih]

theorem launchedCommandLines_exitTurns (cmd : TSTR) (ev : HANDLE)
    (exits : List (HANDLE × HANDLE)) :
    launchedCommandLines (exitTurns cmd ev exits) = List.replicate exits.length cmd := by
  induction exits with
  | nil => rfl
  | cons p ps ih => simp [exitTurns, launchedCommandLines, ih, List.replicate_succ]

theorem DWORD_MOD_eq : DWORD_MOD = 4294967296 := by
  norm_num [DWORD_MOD]

theorem CommandLineLength_eq (E P : TSTR) (hlen : E.length + P.length + 4 < 2 ^ 32) :
    CommandLineLength E P = E.length + P.length + 4 := by
  have h : E.length + P.length + 4 < 4294967296 := by norm_num at hlen; exact hlen
  show (E.length + 2 + P.length + 2) % DWORD_MOD * sizeof_TCHAR % DWORD_MOD
    = E.length + P.length + 4
  simp only [sizeof_TCHAR, DWORD_MOD_eq]
  omega

theorem CommandLineFormat_length (E P : TSTR) :
    (CommandLineFormat E P).length = E.length + P.length + 3 := by
  simp only [CommandLineFormat, List.length_append, List.length_cons, List.length_nil]
  omega

theorem CommandLineBuffer_eq (E P : TSTR) (hlen : E.length + P.length + 4 < 2 ^ 32) :
    CommandLineBuffer E P = CommandLineFormat E P ++ [NUL] := by
  have h : E.length + P.length + 4 < 4294967296 := by norm_num at hlen; exact hlen
  have hcount : (CommandLineLength E P + DWORD_MOD - 1) % DWORD_MOD = E.length + P.length + 3 := by
    rw [CommandLineLength_eq E P hlen, DWORD_MOD_eq]
    show (E.length + P.length + 4 + 4294967296 - 1) % 4294967296 = E.length + P.length + 3
    omega
  have hfl := CommandLineFormat_length E P
  have hnot : ¬ (CommandLineFormat E P).length < E.length + P.length + 3 := by omega
  have htake : (CommandLineFormat E P).take (E.length + P.length + 3) = CommandLineFormat E P :=
    List.take_of_length_le (by omega)
  have hdrop : (callocBuffer (E.length + P.length + 4)).drop (CommandLineFormat E P).length
      = [NUL] := by
    simp only [callocBuffer, sizeof_TCHAR, Nat.div_one, hfl, List.drop_replicate]
    rw [show E.length + P.length + 4 - (E.length + P.length + 3) = 1 by omega]
    rfl
  unfold CommandLineBuffer sntprintf
  rw [hcount, CommandLineLength_eq E P hlen]
  simp only [hnot, if_false, htake, hdrop]

theorem cstring_terminated (text : TSTR) (h : NUL ∉ text) (tail : TSTR) :
    cstring (text ++ NUL :: tail) = text := by
  induction text with
  | nil => simp [cstring]
  | cons c t ih =>
    have hc : c ≠ NUL := fun hc => h (hc ▸ List.mem_cons_self _ _)
    have ht : NUL ∉ t := fun hm => h (List.mem_cons_of_mem _ hm)
    have := ih ht
    simp only [cstring] at this ⊢
    simp [List.takeWhile_cons, hc, this]

theorem MonitorThreadLoop_commandLines (cmd : TSTR) (ev : HANDLE) (launches : List Launch) :
    ∀ c ∈ launchedCommandLines (MonitorThreadLoop cmd ev launches).trace, c = cmd := by
  induction launches with
  | nil => simp [MonitorThreadLoop, launchedCommandLines]
  | cons l rest ih =>
    cases l with
    | failed => simp [MonitorThreadLoop, launchedCommandLines]
    | started hP hT obj =>
      unfold MonitorThreadLoop
      split_ifs
      · simp [launchedCommandLines]
      · simp only [List.cons_append, List.nil_append, launchedCommandLines, List.mem_cons]
        rintro c (rfl | hc)
        · rfl
        · exact ih c hc
      · simp [launchedCommandLines]

theorem PutStringLoop_spec (W : WriteOutcomes) (H : HANDLE) (B : TSTR) (L : DWORD)
    (hL : L < DWORD_MOD)
    (hW : ∀ k n, 0 < n → (W k n).Success = true → 1 ≤ (W k n).Written ∧ (W k n).Written ≤ n) :
    ∀ (fuel k : Nat) (Offset : Nat), Offset ≤ L → L - Offset ≤ fuel →
      (PutStringLoop W H B L fuel k Offset).returned = true ∧
      (∀ i, i < (PutStringLoop W H B L fuel k Offset).trace.length →
        (PutStringLoop W H B L fuel k Offset).trace[i]? = some
          (Effect.WriteFile H B
            (Offset + (((PutStringLoop W H B L fuel k Offset).trace.take i).map Effect.written).sum)
            (L - (Offset +
              (((PutStringLoop W H B L fuel k Offset).trace.take i).map Effect.written).sum))
            (W (k + i) (L - (Offset +
              (((PutStringLoop W H B L fuel k Offset).trace.take i).map Effect.written).sum))).Success
            (W (k + i) (L - (Offset +
              (((PutStringLoop W H B L fuel k Offset).trace.take i).map
                Effect.written).sum))).Written)) ∧
      (∀ i e, i + 1 < (PutStringLoop W H B L fuel k Offset).trace.length →
        (PutStringLoop W H B L fuel k Offset).trace[i]? = some e → e.succeeded = true) ∧
      (((∀ e ∈ (PutStringLoop W H B L fuel k Offset).trace, e.succeeded = true) ∧
          Offset + ((PutStringLoop W H B L fuel k Offset).trace.map Effect.written).sum = L) ∨
        (∃ e, (PutStringLoop W H B L fuel k Offset).trace.getLast? = some e ∧
          e.succeeded = false)) := by
  intro fuel
  induction fuel with
  | zero =>
    intro k Offset h1 h2
    have : Offset = L := by simp only [DWORD] at *; omega
    subst this
    simp [PutStringLoop]
  | succ fuel ih =>
    intro k Offset h1 h2
    by_cases hlt : Offset < L
    · by_cases hs : (W k (L - Offset)).Success = false
      · have hdef : PutStringLoop W H B L (fuel + 1) k Offset =
            { trace := [Effect.WriteFile H B Offset (L - Offset) false
                (W k (L - Offset)).Written],
              Offset := Offset, returned := true } := by
          simp [PutStringLoop, hlt, hs]
        rw [hdef]
        refine ⟨rfl, ?_, ?_, Or.inr ⟨_, rfl, rfl⟩⟩
        · intro i hi
          have : i = 0 := by simpa using hi
          subst this
          simp [hs]
        · intro i e hi
          simp at hi
      · have hs' : (W k (L - Offset)).Success = true := by simpa using hs
        obtain ⟨hw1, hw2⟩ := hW k (L - Offset) (by simp only [DWORD] at *; omega) hs'
        have hmod : (Offset + (W k (L - Offset)).Written) % DWORD_MOD
            = Offset + (W k (L - Offset)).Written := by
          apply Nat.mod_eq_of_lt
          simp only [DWORD] at *
          omega
        have hdef : PutStringLoop W H B L (fuel + 1) k Offset =
            { trace := Effect.WriteFile H B Offset (L - Offset) true (W k (L - Offset)).Written ::
                (PutStringLoop W H B L fuel (k + 1) (Offset + (W k (L - Offset)).Written)).trace,
              Offset :=
                (PutStringLoop W H B L fuel (k + 1) (Offset + (W k (L - Offset)).Written)).Offset,
              returned :=
                (PutStringLoop W H B L fuel (k + 1)
                  (Offset + (W k (L - Offset)).Written)).returned } := by
          simp [PutStringLoop, hlt, hs', hmod]
        rw [hdef]
        obtain ⟨r1, r2, r3, r4⟩ := ih (k + 1) (Offset + (W k (L - Offset)).Written)
          (by simp only [DWORD] at *; omega) (by simp only [DWORD] at *; omega)
        refine ⟨r1, ?_, ?_, ?_⟩
        · intro i hi
          cases i with
          | zero => simp [hs']
          | succ j =>
            have hj : j < (PutStringLoop W H B L fuel (k + 1)
                (Offset + (W k (L - Offset)).Written)).trace.length := by
              simpa using hi
            have := r2 j hj
            simp only [List.getElem?_cons_succ, List.take_succ_cons, List.map_cons,
              List.sum_cons, Effect.written]
            rw [this]
            simp only [Nat.add_assoc, Nat.add_comm 1 j]
        · intro i e hi he
          cases i with
          | zero =>
            simp only [List.getElem?_cons_zero, Option.some.injEq] at he
            subst he
            rfl
          | succ j =>
            simp only [List.getElem?_cons_succ] at he
            exact r3 j e (by simpa using hi) he
        · rcases r4 with ⟨ha, hsum⟩ | ⟨e, hl, hf⟩
          · left
            refine ⟨?_, ?_⟩
            · intro e he
              rcases List.mem_cons.mp he with rfl | he
              · rfl
              · exact ha e he
            · simp only [List.map_cons, List.sum_cons, Effect.written]
              simp only [DWORD] at *
              omega
          · right
            refine ⟨e, ?_, hf⟩
            cases hrest : (PutStringLoop W H B L fuel (k + 1)
                (Offset + (W k (L - Offset)).Written)).trace with
            | nil => simp [hrest] at hl
            | cons x xs =>
              rw [hrest] at hl
              simpa [List.getLast?_cons_cons] using hl
    · have : Offset = L := by simp only [DWORD] at *; omega
      subst this
      simp [PutStringLoop]

/-- Every failure `MonitorAdd` tests for empties the device slot again: if it
returns with a Session recorded, then the path was found, `CreateFile` did not
answer `INVALID_HANDLE_VALUE`, the registration and the event are not `NULL`,
and `CreateThread` did not answer `INVALID_HANDLE_VALUE`. -/
theorem MonitorAdd_session_only_if_checks_pass (G : GUID) (o : AddOutcomes)
    (c : MONITOR_CONTEXT) (hd : c.Device = INVALID_HANDLE_VALUE)
    (hr : (MonitorAdd G o c).returned = true)
    (hs : (MonitorAdd G o c).ctx.Device ≠ INVALID_HANDLE_VALUE) :
    (MonitorGetPath G o.GetPath).Path ≠ none ∧
    o.CreateFile ≠ INVALID_HANDLE_VALUE ∧
    o.RegisterDeviceNotification ≠ NULL ∧
    o.CreateEvent ≠ NULL ∧
    o.CreateThread ≠ INVALID_HANDLE_VALUE := by
  unfold MonitorAdd at hr hs
  simp only [hd, ne_eq, not_true_eq_false, if_false] at hr hs
  rcases hp : (MonitorGetPath G o.GetPath).Path with _ | Path
  · simp [hp, hd] at hs
  · simp only [hp] at hr hs
    split_ifs at hr hs with h1 h2 h3 h4 h5 <;>
      simp_all [MonitorAdd.fail2, MonitorAdd.fail3, MonitorAdd.fail4, MonitorAdd.fail5]

theorem MonitorRemove_returned_device (o : RemoveOutcomes) (c : MONITOR_CONTEXT)
    (hr : (MonitorRemove o c).returned = true) :
    (MonitorRemove o c).ctx.Device = INVALID_HANDLE_VALUE := by
  unfold MonitorRemove at hr ⊢
  by_cases hd : c.Device = INVALID_HANDLE_VALUE
  · simp [hd]
  · rw [if_neg hd] at hr ⊢
    by_cases he : (ECHO o.WriteFile o.fuel c.Device DETACHED).returned = false
    · simp [he] at hr
    · simp [he]

theorem GetExecutable_fails (o : ExecutableOutcomes) (c : MONITOR_CONTEXT)
    (hbad : o.InfoError ≠ ERROR_SUCCESS ∨ o.ValueError ≠ ERROR_SUCCESS ∨ o.ValueType ≠ REG_SZ) :
    (GetExecutable o c).Success = false := by
  unfold GetExecutable
  by_cases h1 : o.InfoError = ERROR_SUCCESS
  · by_cases h2 : o.ValueError = ERROR_SUCCESS
    · by_cases h3 : o.ValueType = REG_SZ
      · rcases hbad with h | h | h
        · exact absurd h1 h
        · exact absurd h2 h
        · exact absurd h3 h
      · simp [h1, h2, h3]
    · simp [h1, h2]
  · simp [h1]

theorem GetExecutable_startupCall (o : ExecutableOutcomes) (c : MONITOR_CONTEXT) :
    ∀ e ∈ (GetExecutable o c).trace, e.startupCall = true := by
  unfold GetExecutable
  by_cases h1 : o.InfoError = ERROR_SUCCESS
  · by_cases h2 : o.ValueError = ERROR_SUCCESS
    · by_cases h3 : o.ValueType = REG_SZ
      · simp [h1, h2, h3, Effect.startupCall]
      · simp [h1, h2, h3, Effect.startupCall]
    · simp [h1, h2, Effect.startupCall]
  · simp [h1, Effect.startupCall]

theorem ReportStatus_trace (s e w : DWORD) (c : MONITOR_CONTEXT) :
    ∀ x ∈ (ReportStatus s e w c).2, x.startupCall = true := by
  simp [ReportStatus, Effect.startupCall]

/-- If `GetExecutable` fails, `MonitorMain` returns having made start-up calls
only, whatever the wakes. -/
theorem MonitorMain_abort (G : GUID) (o : MainOutcomes) (wakes : List Wake)
    (c : MONITOR_CONTEXT) (hge : ∀ c', (GetExecutable o.Executable c').Success = false) :
    (MonitorMain G o wakes c).returned = true ∧
    (∀ e ∈ (MonitorMain G o wakes c).trace, e.startupCall = true) ∧
    MonitorMain G o wakes c = MonitorMain G o [] c := by
  have hg := GetExecutable_startupCall o.Executable
  unfold MonitorMain
  by_cases h1 : o.OpenKeyError = ERROR_SUCCESS
  swap
  · simp [h1, Effect.startupCall]
  by_cases h2 : o.Service = NULL
  · simp [h1, h2, MonitorMain.fail2, Effect.startupCall]
  by_cases h3 : o.EventLog = NULL
  · simp [h1, h2, h3, MonitorMain.fail2, Effect.startupCall]
  by_cases h4 : o.StopEvent = NULL
  · simp [h1, h2, h3, h4, MonitorMain.fail2, MonitorMain.fail4, Effect.startupCall,
      ReportStatus]
  by_cases h5 : o.AddEvent = NULL
  · simp [h1, h2, h3, h4, h5, MonitorMain.fail2, MonitorMain.fail4, MonitorMain.fail5,
      Effect.startupCall, ReportStatus]
  by_cases h6 : o.RemoveEvent = NULL
  · simp [h1, h2, h3, h4, h5, h6, MonitorMain.fail2, MonitorMain.fail4, MonitorMain.fail5,
      MonitorMain.fail6, Effect.startupCall, ReportStatus]
  simp only [h1, h2, h3, h4, h5, h6, hge, ne_eq, not_true_eq_false, if_false, if_true,
    MonitorMain.fail2, MonitorMain.fail4, MonitorMain.fail5, MonitorMain.fail6,
    MonitorMain.fail7, true_and, and_true]
  simp only [List.mem_append, List.mem_cons, List.mem_singleton, List.not_mem_nil,
    or_false, ReportStatus, or_imp, forall_and, forall_eq, Effect.startupCall, and_true,
    true_and]
  exact hg _

theorem GetExecutable_frame (o : ExecutableOutcomes) (c : MONITOR_CONTEXT) :
    (GetExecutable o c).ctx.Service = c.Service ∧
    (GetExecutable o c).ctx.EventLog = c.EventLog ∧
    (GetExecutable o c).ctx.ParametersKey = c.ParametersKey ∧
    (GetExecutable o c).ctx.StopEvent = c.StopEvent ∧
    (GetExecutable o c).ctx.AddEvent = c.AddEvent ∧
    (GetExecutable o c).ctx.RemoveEvent = c.RemoveEvent := by
  unfold GetExecutable
  by_cases h1 : o.InfoError = ERROR_SUCCESS
  · by_cases h2 : o.ValueError = ERROR_SUCCESS
    · by_cases h3 : o.ValueType = REG_SZ
      · simp [h1, h2, h3]
      · simp [h1, h2, h3]
    · simp [h1, h2]
  · simp [h1]

theorem MonitorMain_fail7_shape (L : DWORD) (c : MONITOR_CONTEXT) (t : List Effect) :
    (MonitorMain.fail7 L c t).trace =
      t ++ [Effect.CloseHandle c.RemoveEvent, Effect.CloseHandle c.AddEvent,
            Effect.CloseHandle c.StopEvent,
            Effect.SetServiceStatus c.Service (ReportStatus SERVICE_STOPPED L 0 c).1.Status,
            Effect.DeregisterEventSource c.EventLog, Effect.CloseHandle c.ParametersKey] ∧
    (MonitorMain.fail7 L c t).ctx.Status.dwCurrentState = SERVICE_STOPPED ∧
    (ReportStatus SERVICE_STOPPED L 0 c).1.Status.dwCurrentState = SERVICE_STOPPED ∧
    (ReportStatus SERVICE_STOPPED L 0 c).1.Status.dwWin32ExitCode = L := by
  simp [MonitorMain.fail7, MonitorMain.fail6, MonitorMain.fail5, MonitorMain.fail4,
    MonitorMain.fail2, ReportStatus]

/-- When the six steps before it succeed and `GetExecutable` fails, `MonitorMain`
is label `fail7` entered from a context that holds the handles just obtained. -/
theorem MonitorMain_at_fail7 (G : GUID) (o : MainOutcomes) (wakes : List Wake)
    (c : MONITOR_CONTEXT) (hge : ∀ c', (GetExecutable o.Executable c').Success = false)
    (h1 : o.OpenKeyError = ERROR_SUCCESS) (h2 : o.Service ≠ NULL) (h3 : o.EventLog ≠ NULL)
    (h4 : o.StopEvent ≠ NULL) (h5 : o.AddEvent ≠ NULL) (h6 : o.RemoveEvent ≠ NULL) :
    ∃ c7 t7, c7.Service = o.Service ∧ c7.EventLog = o.EventLog ∧
      c7.ParametersKey = o.ParametersKey ∧ c7.StopEvent = o.StopEvent ∧
      c7.AddEvent = o.AddEvent ∧ c7.RemoveEvent = o.RemoveEvent ∧
      MonitorMain G o wakes c =
        MonitorMain.fail7 o.LastError (GetExecutable o.Executable c7).ctx
          (t7 ++ (GetExecutable o.Executable c7).trace) := by
  unfold MonitorMain
  simp only [h1, h2, h3, h4, h5, h6, hge, ne_eq, not_true_eq_false, if_false, if_true]
  exact ⟨_, _, rfl, rfl, rfl, rfl, rfl, rfl, rfl⟩

/-- What `MonitorAdd` releases when one of its first three failure tests fires,
and when `CreateEvent` fails: after a failed `CreateFile` the path is freed;
after a failed registration the device is closed and then the path is freed;
after a failed `CreateEvent` the path is freed, the registration and the device
are released, and the path is freed a second time. -/
theorem MonitorAdd_failure_releases (G : GUID) (o : AddOutcomes) (c : MONITOR_CONTEXT)
    (Path : TSTR) (hd : c.Device = INVALID_HANDLE_VALUE)
    (hp : (MonitorGetPath G o.GetPath).Path = some Path) :
    (o.CreateFile = INVALID_HANDLE_VALUE →
      (MonitorAdd G o c).trace =
        (MonitorGetPath G o.GetPath).trace ++
          [Effect.CreateFile Path o.CreateFile, Effect.free (some Path)]) ∧
    (o.CreateFile ≠ INVALID_HANDLE_VALUE →
      (ECHO o.WriteFile o.fuel o.CreateFile ATTACHED).returned = true →
      o.RegisterDeviceNotification = NULL →
      (MonitorAdd G o c).trace =
        (MonitorGetPath G o.GetPath).trace ++ [Effect.CreateFile Path o.CreateFile] ++
          (ECHO o.WriteFile o.fuel o.CreateFile ATTACHED).trace ++
          [Effect.RegisterDeviceNotification c.Service DBT_DEVTYP_HANDLE o.CreateFile 0 NULL,
           Effect.CloseHandle o.CreateFile, Effect.free (some Path)]) ∧
    (o.CreateFile ≠ INVALID_HANDLE_VALUE →
      (ECHO o.WriteFile o.fuel o.CreateFile ATTACHED).returned = true →
      o.RegisterDeviceNotification ≠ NULL → o.CreateEvent = NULL →
      (MonitorAdd G o c).trace =
        (MonitorGetPath G o.GetPath).trace ++ [Effect.CreateFile Path o.CreateFile] ++
          (ECHO o.WriteFile o.fuel o.CreateFile ATTACHED).trace ++
          [Effect.RegisterDeviceNotification c.Service DBT_DEVTYP_HANDLE o.CreateFile 0
             o.RegisterDeviceNotification,
           Effect.CreateEvent NULL,
           Effect.free (some Path),
           Effect.UnregisterDeviceNotification o.RegisterDeviceNotification,
           Effect.CloseHandle o.CreateFile,
           Effect.free (some Path)]) := by
  refine ⟨?_, ?_, ?_⟩
  · intro h1
    simp [MonitorAdd, hd, hp, h1, MonitorAdd.fail2]
  · intro h1 h2 h3
    simp [MonitorAdd, hd, hp, h1, h2, h3, MonitorAdd.fail2, MonitorAdd.fail3]
  · intro h1 h2 h3 h4
    simp [MonitorAdd, hd, hp, h1, h2, h3, h4, MonitorAdd.fail2, MonitorAdd.fail3,
      MonitorAdd.fail4]

/-- The first iteration of the `PutString` loop: with bytes left to write, the
first call is a `WriteFile` at the current offset for all the remaining bytes. -/
theorem PutStringLoop_first_write (W : WriteOutcomes) (H : HANDLE) (B : TSTR) (L : DWORD)
    (fuel k : Nat) (Offset : DWORD) (hfuel : 0 < fuel) (hlt : Offset < L) :
    (PutStringLoop W H B L fuel k Offset).trace.head? =
      some (Effect.WriteFile H B Offset (L - Offset) (W k (L - Offset)).Success
        (W k (L - Offset)).Written) := by
  cases fuel with
  | zero => exact absurd hfuel (Nat.lt_irrefl 0)
  | succ fuel =>
    unfold PutStringLoop
    by_cases hs : (W k (L - Offset)).Success = false
    · simp [hlt, hs]
    · simp [hlt, hs]

/-- A `WriteFile` that keeps reporting success with no byte written keeps the
`PutString` loop going: however long it is observed, it has not returned and
has repeated the same call. -/
theorem PutStringLoop_stuck (H : HANDLE) (B : TSTR) (L : DWORD) (hL : 0 < L) :
    ∀ (fuel k : Nat), PutStringLoop writeNothing H B L fuel k 0 =
      { trace := List.replicate fuel (Effect.WriteFile H B 0 L true 0),
        Offset := 0, returned := false } := by
  intro fuel
  induction fuel with
  | zero =>
    intro k
    simp [PutStringLoop, hL]
  | succ fuel ih =>
    intro k
    unfold PutStringLoop
    have h0 : (0 + (writeNothing k (L - 0)).Written) % DWORD_MOD = 0 := by
      simp [writeNothing]
    simp only [hL, if_true, h0, ih (k + 1)]
    simp [writeNothing, List.replicate_succ]

/-- When every successful `WriteFile` reports between 1 and the requested
number of bytes, `PutString` makes at most as many calls as bytes are left. -/
theorem PutStringLoop_length_le (W : WriteOutcomes) (H : HANDLE) (B : TSTR) (L : DWORD)
    (hL : L < DWORD_MOD)
    (hW : ∀ k n, 0 < n → (W k n).Success = true → 1 ≤ (W k n).Written ∧ (W k n).Written ≤ n) :
    ∀ (fuel k : Nat) (Offset : Nat), Offset ≤ L →
      (PutStringLoop W H B L fuel k Offset).trace.length ≤ L - Offset := by
  intro fuel
  induction fuel with
  | zero =>
    intro k Offset _
    simp [PutStringLoop]
  | succ fuel ih =>
    intro k Offset h1
    by_cases hlt : Offset < L
    · by_cases hs : (W k (L - Offset)).Success = false
      · have hdef : (PutStringLoop W H B L (fuel + 1) k Offset).trace =
            [Effect.WriteFile H B Offset (L - Offset) false (W k (L - Offset)).Written] := by
          simp [PutStringLoop, hlt, hs]
        rw [hdef, List.length_singleton]
        simp only [DWORD] at *
        omega
      · have hs' : (W k (L - Offset)).Success = true := by simpa using hs
        obtain ⟨hw1, hw2⟩ := hW k (L - Offset) (by simp only [DWORD] at *; omega) hs'
        have hmod : (Offset + (W k (L - Offset)).Written) % DWORD_MOD
            = Offset + (W k (L - Offset)).Written := by
          apply Nat.mod_eq_of_lt
          simp only [DWORD] at *
          omega
        have hdef : (PutStringLoop W H B L (fuel + 1) k Offset).trace =
            Effect.WriteFile H B Offset (L - Offset) true (W k (L - Offset)).Written ::
              (PutStringLoop W H B L fuel (k + 1)
                (Offset + (W k (L - Offset)).Written)).trace := by
          simp [PutStringLoop, hlt, hs', hmod]
        have hrec := ih (k + 1) (Offset + (W k (L - Offset)).Written)
          (by simp only [DWORD] at *; omega)
        rw [hdef, List.length_cons]
        simp only [DWORD] at *
        omega
    · have hdef : (PutStringLoop W H B L (fuel + 1) k Offset).trace = [] := by
        simp [PutStringLoop, hlt]
      rw [hdef]
      simp

/-- The marker `"\r\n[DETACHED]\r\n"` has 14 characters, as a `DWORD`. -/
theorem DETACHED_length : DETACHED.length % DWORD_MOD = 14 := by decide

/-! ## Claims -/

/-- C1: from any context with nothing yet opened or started (in particular the
one with no Session), along every sequence of add and remove reactions and
whatever the operating system answers, at every point of the run at most one
device handle opened by `MonitorAdd` is unclosed and at most one started thread
is unjoined; and an add that follows an add which recorded a Session makes no
call at all and leaves the context as it is. -/
theorem C1_at_most_one_session (G : GUID) (Context : MONITOR_CONTEXT) (rs : List Reaction) :
    (∀ n, (Live.after ((runReactions G Context rs).trace.take n)).devices.length ≤ 1 ∧
          (Live.after ((runReactions G Context rs).trace.take n)).threads.length ≤ 1) ∧
    (∀ o₁ o₂, (MonitorAdd G o₁ Context).ctx.Device ≠ INVALID_HANDLE_VALUE →
        MonitorAdd G o₂ (MonitorAdd G o₁ Context).ctx =
          { ctx := (MonitorAdd G o₁ Context).ctx, trace := [], returned := true }) := by
  constructor
  · have hinv : Inv Context { devices := [], threads := [] } := by simp [Inv]
    exact fun n => (runReactions_safe G rs Context _ hinv n).1
  · intro o₁ o₂ h
    exact MonitorAdd_attached G o₂ _ h

/-- C1 at a concrete run from the context with no Session: add, add again,
remove, add with a failing registration, add with a failing `CreateThread`,
remove, remove; observed right after the first thread has been started. -/
theorem C1_at_most_one_session_witness :
    idleContext.Device = INVALID_HANDLE_VALUE ∧
    (Live.after ((runReactions 7 idleContext
        [Reaction.add addSucceeds, Reaction.add addSucceeds, Reaction.remove removeWrites,
         Reaction.add addRegisterFails, Reaction.add addThreadFails,
         Reaction.remove removeWrites, Reaction.remove removeWrites]).trace.take 14)).devices.length
      ≤ 1 ∧
    (Live.after ((runReactions 7 idleContext
        [Reaction.add addSucceeds, Reaction.add addSucceeds, Reaction.remove removeWrites,
         Reaction.add addRegisterFails, Reaction.add addThreadFails,
         Reaction.remove removeWrites, Reaction.remove removeWrites]).trace.take 14)).threads.length
      ≤ 1 :=
  ⟨rfl, (C1_at_most_one_session 7 idleContext _).1 14⟩

/-- C2 (the code at the failing input): every call of `MonitorAdd` succeeds
except `CreateThread`, which returns `NULL`.  `MonitorAdd` compares the result
with `INVALID_HANDLE_VALUE`, takes the failure for a success and returns with
the device slot still holding the open handle and no thread; the next add
reaction then short-circuits instead of retrying. -/
theorem C2_CreateThread_NULL_keeps_session :
    (MonitorAdd 7 addThreadFails idleContext).returned = true ∧
    (MonitorAdd 7 addThreadFails idleContext).ctx.Thread = NULL ∧
    (MonitorAdd 7 addThreadFails idleContext).ctx.Device = 300 ∧
    (MonitorAdd 7 addThreadFails idleContext).ctx.Device ≠ INVALID_HANDLE_VALUE ∧
    (MonitorAdd 7 addSucceeds (MonitorAdd 7 addThreadFails idleContext).ctx).trace = [] := by
  decide

/-- C3 (counterexample): on a context holding a Session the calls of
`MonitorRemove` are not the specified sequence, and the specified sequence is
not even contained in them in that order: the path is freed before the
notification is unregistered and before the device handle is closed. -/
theorem C3_spec_order_counterexample :
    (MonitorRemove removeWrites attachedContext).trace ≠ SpecTeardown attachedContext ∧
    ¬ (SpecTeardown attachedContext).Sublist (MonitorRemove removeWrites attachedContext).trace := by
  decide

/-- C3 (amended): when a Session exists, the calls of `MonitorRemove` are
exactly, in this order: set the cancellation event, wait for the thread, close
the cancellation event, free the device path, unregister the query-remove
notification, write the DETACHED marker to the device, and close the device
handle last.  The marker write is a run of `WriteFile` calls on the device
handle, the first one for the whole 14-character marker from offset 0.  The
close of the device handle follows as soon as the marker write loop ends, and
the loop ends, within 14 calls, with the marker written completely or right
after a failed call, whenever every successful `WriteFile` reports between 1
and the requested number of bytes.  Without that, the loop need not end: against
a `WriteFile` that keeps reporting success with 0 bytes the function repeats the
same call, never returns and never closes the device handle. -/
theorem C3_teardown_order (o : RemoveOutcomes) (Context : MONITOR_CONTEXT)
    (h : Context.Device ≠ INVALID_HANDLE_VALUE) :
    (MonitorRemove o Context).trace =
      [Effect.SetEvent Context.ThreadEvent,
       Effect.WaitForSingleObject Context.Thread,
       Effect.CloseHandle Context.ThreadEvent,
       Effect.free Context.DevicePath,
       Effect.UnregisterDeviceNotification Context.DeviceNotification] ++
      (ECHO o.WriteFile o.fuel Context.Device DETACHED).trace ++
      (if (ECHO o.WriteFile o.fuel Context.Device DETACHED).returned = true
        then [Effect.CloseHandle Context.Device] else []) ∧
    (∀ e ∈ (ECHO o.WriteFile o.fuel Context.Device DETACHED).trace,
      ∃ off n s w, e = Effect.WriteFile Context.Device DETACHED off n s w) ∧
    (0 < o.fuel →
      (ECHO o.WriteFile o.fuel Context.Device DETACHED).trace.head? =
        some (Effect.WriteFile Context.Device DETACHED 0 14 (o.WriteFile 0 14).Success
          (o.WriteFile 0 14).Written)) ∧
    (14 ≤ o.fuel →
      (∀ k n, 0 < n → (o.WriteFile k n).Success = true →
        1 ≤ (o.WriteFile k n).Written ∧ (o.WriteFile k n).Written ≤ n) →
      (MonitorRemove o Context).returned = true ∧
      (MonitorRemove o Context).trace =
        [Effect.SetEvent Context.ThreadEvent,
         Effect.WaitForSingleObject Context.Thread,
         Effect.CloseHandle Context.ThreadEvent,
         Effect.free Context.DevicePath,
         Effect.UnregisterDeviceNotification Context.DeviceNotification] ++
        (ECHO o.WriteFile o.fuel Context.Device DETACHED).trace ++
        [Effect.CloseHandle Context.Device] ∧
      (ECHO o.WriteFile o.fuel Context.Device DETACHED).trace ≠ [] ∧
      (ECHO o.WriteFile o.fuel Context.Device DETACHED).trace.length ≤ 14 ∧
      (((∀ e ∈ (ECHO o.WriteFile o.fuel Context.Device DETACHED).trace, e.succeeded = true) ∧
          ((ECHO o.WriteFile o.fuel Context.Device DETACHED).trace.map Effect.written).sum
            = 14) ∨
        (∃ e, (ECHO o.WriteFile o.fuel Context.Device DETACHED).trace.getLast? = some e ∧
          e.succeeded = false))) ∧
    (∀ fuel : Nat,
      (MonitorRemove { WriteFile := writeNothing, fuel := fuel } Context).returned = false ∧
      (MonitorRemove { WriteFile := writeNothing, fuel := fuel } Context).trace =
        [Effect.SetEvent Context.ThreadEvent,
         Effect.WaitForSingleObject Context.Thread,
         Effect.CloseHandle Context.ThreadEvent,
         Effect.free Context.DevicePath,
         Effect.UnregisterDeviceNotification Context.DeviceNotification] ++
        List.replicate fuel (Effect.WriteFile Context.Device DETACHED 0 14 true 0)) := by
  have hecho : ∀ (W : WriteOutcomes) (fuel : Nat),
      ECHO W fuel Context.Device DETACHED =
        PutStringLoop W Context.Device DETACHED 14 fuel 0 0 := by
    intro W fuel
    simp only [ECHO, PutString, DETACHED_length]
  have hfirst : 0 < o.fuel →
      (ECHO o.WriteFile o.fuel Context.Device DETACHED).trace.head? =
        some (Effect.WriteFile Context.Device DETACHED 0 14 (o.WriteFile 0 14).Success
          (o.WriteFile 0 14).Written) := by
    intro hf
    rw [hecho]
    exact PutStringLoop_first_write o.WriteFile Context.Device DETACHED 14 o.fuel 0 0 hf
      (by decide)
  refine ⟨MonitorRemove_trace o Context h, PutStringLoop_writes _ _ _ _ _ _ _, hfirst, ?_, ?_⟩
  · intro hfuel hW
    have hspec := PutStringLoop_spec o.WriteFile Context.Device DETACHED 14 (by decide) hW
      o.fuel 0 0 (Nat.zero_le _) hfuel
    have hret : (ECHO o.WriteFile o.fuel Context.Device DETACHED).returned = true := by
      rw [hecho]; exact hspec.1
    have hne : (ECHO o.WriteFile o.fuel Context.Device DETACHED).trace ≠ [] := by
      intro hnil
      have := hfirst (Nat.lt_of_lt_of_le (by decide) hfuel)
      rw [hnil] at this
      simp at this
    refine ⟨?_, ?_, hne, ?_, ?_⟩
    · simp [MonitorRemove, h, hret]
    · rw [MonitorRemove_trace o Context h, if_pos hret]
    · rw [hecho]
      exact PutStringLoop_length_le o.WriteFile Context.Device DETACHED 14 (by decide) hW
        o.fuel 0 0 (Nat.zero_le _)
    · rw [hecho]
      simpa using hspec.2.2.2
  · intro fuel
    have hstuck := PutStringLoop_stuck Context.Device DETACHED 14 (by decide) fuel 0
    have hE : ECHO writeNothing fuel Context.Device DETACHED =
        { trace := List.replicate fuel (Effect.WriteFile Context.Device DETACHED 0 14 true 0),
          Offset := 0, returned := false } := by
      rw [hecho]; exact hstuck
    simp [MonitorRemove, h, hE]

/-- C3 (amended) on the sample Session, where `WriteFile` takes the whole
marker at once: seven calls, the close of the device handle last. -/
theorem C3_teardown_order_witness :
    attachedContext.Device ≠ INVALID_HANDLE_VALUE ∧
    14 ≤ removeWrites.fuel ∧
    (MonitorRemove removeWrites attachedContext).returned = true ∧
    (MonitorRemove removeWrites attachedContext).trace =
      [Effect.SetEvent 308,
       Effect.WaitForSingleObject 312,
       Effect.CloseHandle 308,
       Effect.free (some sampleDevicePath),
       Effect.UnregisterDeviceNotification 304,
       Effect.WriteFile 300 DETACHED 0 14 true 14,
       Effect.CloseHandle 300] :=
  have h := (C3_teardown_order removeWrites attachedContext (by decide)).2.2.2.1 (by decide)
    (by
      intro k n hn _
      simp only [removeWrites, writeAll, DWORD] at *
      omega)
  ⟨by decide, by decide, h.1, h.2.1.trans (by decide)⟩

/-- C4: in every run of `MonitorRemove` a `CloseHandle` of the device handle
comes after the `SetEvent` on the cancellation event and the
`WaitForSingleObject` on the thread, in that order; along every sequence of add
and remove reactions, whenever a device handle that is still open is closed no
started thread is unjoined; and every handle `MonitorThread` closes is a process
or thread handle one of its own `CreateProcess` calls returned, so that, those
handles being fresh and hence different from the open device handle, it never
closes the device handle. -/
theorem C4_device_closed_after_join (G : GUID) (Context : MONITOR_CONTEXT) (o : RemoveOutcomes)
    (rs : List Reaction) (Executable DevicePath : TSTR) (Allocated : Bool)
    (launches : List Launch) :
    (∀ pre post,
      (MonitorRemove o Context).trace = pre ++ Effect.CloseHandle Context.Device :: post →
        [Effect.SetEvent Context.ThreadEvent,
         Effect.WaitForSingleObject Context.Thread].Sublist pre) ∧
    (∀ n h, (runReactions G Context rs).trace.get? n = some (Effect.CloseHandle h) →
      h ∈ (Live.after ((runReactions G Context rs).trace.take n)).devices →
        (Live.after ((runReactions G Context rs).trace.take n)).threads = []) ∧
    (∀ h, Effect.CloseHandle h ∈
        (MonitorThread Executable DevicePath Context.ThreadEvent Allocated launches).trace →
      ∃ hP hT obj, Launch.started hP hT obj ∈ launches ∧ (h = hP ∨ h = hT)) ∧
    ((∀ hP hT obj, Launch.started hP hT obj ∈ launches →
        hP ≠ Context.Device ∧ hT ≠ Context.Device) →
      Effect.CloseHandle Context.Device ∉
        (MonitorThread Executable DevicePath Context.ThreadEvent Allocated launches).trace) := by
  have hthread : ∀ h, Effect.CloseHandle h ∈
      (MonitorThread Executable DevicePath Context.ThreadEvent Allocated launches).trace →
      ∃ hP hT obj, Launch.started hP hT obj ∈ launches ∧ (h = hP ∨ h = hT) := by
    intro h hm
    unfold MonitorThread at hm
    by_cases ha : Allocated = false
    · simp [ha] at hm
    · simp only [ha, if_false, List.singleton_append, List.mem_cons, reduceCtorEq,
        false_or] at hm
      exact MonitorThreadLoop_closes_own _ _ _ h hm
  refine ⟨?_, ?_, hthread, ?_⟩
  · intro pre post hsplit
    by_cases hd : Context.Device = INVALID_HANDLE_VALUE
    · simp [MonitorRemove, hd] at hsplit
    · rw [MonitorRemove_trace o Context hd] at hsplit
      match pre, hsplit with
      | [], hs => simp at hs
      | [_], hs => simp at hs
      | a :: b :: pre, hs =>
        simp only [List.cons_append, List.cons.injEq] at hs
        obtain ⟨rfl, rfl, -⟩ := hs
        exact List.Sublist.cons₂ _ (List.Sublist.cons₂ _ (List.nil_sublist _))
  · intro n h hn hmem
    have hinv : Inv Context { devices := [], threads := [] } := by simp [Inv]
    exact (runReactions_safe G rs Context _ hinv n).2 h hn hmem
  · intro hfresh hm
    obtain ⟨hP, hT, obj, hmem, hor⟩ := hthread _ hm
    have := hfresh hP hT obj hmem
    rcases hor with h | h
    · exact this.1 h.symm
    · exact this.2 h.symm

/-- C4 on the sample Session: the teardown run up to the close of the device
handle, and a thread whose process was relaunched once and then cancelled. -/
theorem C4_device_closed_after_join_witness :
    [Effect.SetEvent attachedContext.ThreadEvent,
     Effect.WaitForSingleObject attachedContext.Thread].Sublist
      [Effect.SetEvent 308, Effect.WaitForSingleObject 312, Effect.CloseHandle 308,
       Effect.free (some sampleDevicePath), Effect.UnregisterDeviceNotification 304,
       Effect.WriteFile 300 DETACHED 0 14 true 14] ∧
    Effect.CloseHandle attachedContext.Device ∉
      (MonitorThread sampleExecutable sampleDevicePath attachedContext.ThreadEvent true
        [Launch.started 400 404 WAIT_OBJECT_1, Launch.started 408 412 WAIT_OBJECT_0]).trace :=
  have h := C4_device_closed_after_join 7 attachedContext removeWrites
    [Reaction.remove removeWrites, Reaction.add addSucceeds] sampleExecutable sampleDevicePath
    true [Launch.started 400 404 WAIT_OBJECT_1, Launch.started 408 412 WAIT_OBJECT_0]
  ⟨h.1 _ [] (by decide),
   h.2.2.2 (by
      intro hP hT obj hm
      simp only [List.mem_cons, Launch.started.injEq, List.mem_singleton, List.not_mem_nil,
        or_false] at hm
      rcases hm with ⟨rfl, rfl, -⟩ | ⟨rfl, rfl, -⟩ <;> decide)⟩

/-- C5 (counterexample): no Session exists (the device slot holds
`INVALID_HANDLE_VALUE`) and a query-remove of handle type arrives whose handle
field is `INVALID_HANDLE_VALUE`: the handler compares the field with the slot,
finds them equal and sets the remove event, where the claim says that a
query-remove while no Session exists sets neither signal. -/
theorem C5_query_remove_without_session_counterexample :
    idleContext.Device = INVALID_HANDLE_VALUE ∧
    (MonitorCtrlHandlerEx 7 SERVICE_CONTROL_DEVICEEVENT DBT_DEVICEQUERYREMOVE
        { dbch_devicetype := DBT_DEVTYP_HANDLE, dbcc_classguid := 0,
          dbch_handle := INVALID_HANDLE_VALUE }
        idleContext).trace = [Effect.SetEvent idleContext.RemoveEvent] ∧
    ¬ (MonitorCtrlHandlerEx 7 SERVICE_CONTROL_DEVICEEVENT DBT_DEVICEQUERYREMOVE
        { dbch_devicetype := DBT_DEVTYP_HANDLE, dbcc_classguid := 0,
          dbch_handle := INVALID_HANDLE_VALUE }
        idleContext).trace = [] := by
  decide

/-- C5 (amended): for every device-event control the handler returns
`NO_ERROR`, leaves the context alone, and makes at most one call: `SetEvent` on
the add event exactly when the event is an arrival of device-interface type for
the watched class GUID; `SetEvent` on the remove event exactly when it is a
query-remove of handle type whose handle equals the current value of the device
slot; no call otherwise.  The slot holds the open device handle while a Session
exists and `INVALID_HANDLE_VALUE` while none exists.  So for events whose handle
is not `INVALID_HANDLE_VALUE` the remove event is set exactly when the handle is
the open device handle of the current Session, and a query-remove while no
Session exists sets nothing; a query-remove while no Session exists sets the
remove event exactly when it is of handle type and its handle is
`INVALID_HANDLE_VALUE`. -/
theorem C5_device_event_classification (G : GUID) (EventType : DWORD) (EventData : DEV_BROADCAST)
    (Context : MONITOR_CONTEXT) :
    (MonitorCtrlHandlerEx G SERVICE_CONTROL_DEVICEEVENT EventType EventData Context).ret
      = NO_ERROR ∧
    (MonitorCtrlHandlerEx G SERVICE_CONTROL_DEVICEEVENT EventType EventData Context).ctx
      = Context ∧
    (MonitorCtrlHandlerEx G SERVICE_CONTROL_DEVICEEVENT EventType EventData Context).trace =
      (if EventType = DBT_DEVICEARRIVAL ∧
          EventData.dbch_devicetype = DBT_DEVTYP_DEVICEINTERFACE ∧
          EventData.dbcc_classguid = G then
        [Effect.SetEvent Context.AddEvent]
      else if EventType = DBT_DEVICEQUERYREMOVE ∧
          EventData.dbch_devicetype = DBT_DEVTYP_HANDLE ∧
          EventData.dbch_handle = Context.Device then
        [Effect.SetEvent Context.RemoveEvent]
      else []) ∧
    (EventData.dbch_handle ≠ INVALID_HANDLE_VALUE →
      (MonitorCtrlHandlerEx G SERVICE_CONTROL_DEVICEEVENT EventType EventData Context).trace =
        (if EventType = DBT_DEVICEARRIVAL ∧
            EventData.dbch_devicetype = DBT_DEVTYP_DEVICEINTERFACE ∧
            EventData.dbcc_classguid = G then
          [Effect.SetEvent Context.AddEvent]
        else if EventType = DBT_DEVICEQUERYREMOVE ∧
            EventData.dbch_devicetype = DBT_DEVTYP_HANDLE ∧
            Context.Device ≠ INVALID_HANDLE_VALUE ∧
            EventData.dbch_handle = Context.Device then
          [Effect.SetEvent Context.RemoveEvent]
        else [])) ∧
    (EventData.dbch_handle ≠ INVALID_HANDLE_VALUE →
      Context.Device = INVALID_HANDLE_VALUE → EventType = DBT_DEVICEQUERYREMOVE →
      (MonitorCtrlHandlerEx G SERVICE_CONTROL_DEVICEEVENT EventType EventData Context).trace
        = []) ∧
    (Context.Device = INVALID_HANDLE_VALUE → EventType = DBT_DEVICEQUERYREMOVE →
      (MonitorCtrlHandlerEx G SERVICE_CONTROL_DEVICEEVENT EventType EventData Context).trace =
        (if EventData.dbch_devicetype = DBT_DEVTYP_HANDLE ∧
            EventData.dbch_handle = INVALID_HANDLE_VALUE then
          [Effect.SetEvent Context.RemoveEvent]
        else [])) ∧
    (MonitorCtrlHandlerEx G SERVICE_CONTROL_DEVICEEVENT EventType EventData Context).trace.length
      ≤ 1 := by
  have hne : DBT_DEVICEQUERYREMOVE ≠ DBT_DEVICEARRIVAL := by decide
  have hne2 : ¬ DBT_DEVICEARRIVAL = DBT_DEVICEQUERYREMOVE := by decide
  unfold MonitorCtrlHandlerEx
  simp only [show ¬ (SERVICE_CONTROL_DEVICEEVENT = SERVICE_CONTROL_STOP ∨
      SERVICE_CONTROL_DEVICEEVENT = SERVICE_CONTROL_SHUTDOWN) by decide,
    show ¬ (SERVICE_CONTROL_DEVICEEVENT = SERVICE_CONTROL_INTERROGATE) by decide, if_false,
    if_true]
  by_cases ha : EventType = DBT_DEVICEARRIVAL
  · subst ha
    by_cases h1 : EventData.dbch_devicetype = DBT_DEVTYP_DEVICEINTERFACE <;>
      by_cases h2 : EventData.dbcc_classguid = G <;> simp [h1, h2, hne2]
  · by_cases hq : EventType = DBT_DEVICEQUERYREMOVE
    · subst hq
      by_cases h1 : EventData.dbch_devicetype = DBT_DEVTYP_HANDLE
      · by_cases h2 : EventData.dbch_handle = Context.Device
        · simp only [h1, h2, hne, if_true, if_false, and_true, true_and, and_self, ne_eq,
            false_and, List.length_singleton, Nat.le_refl]
          refine ⟨?_, ?_, ?_⟩
          · intro hd; simp [hd]
          · intro hd hd'; exact absurd hd' hd
          · intro hd; simp [hd]
        · simp only [h1, h2, hne, if_true, if_false, and_true, true_and, and_self, ne_eq,
            false_and, and_false, List.length_nil, Nat.zero_le, implies_true]
          intro hd
          have h3 : ¬ EventData.dbch_handle = INVALID_HANDLE_VALUE := fun h => h2 (h.trans hd.symm)
          simp [h3]
      · simp [h1, hne]
    · simp [ha, hq]

/-- C5 (amended) on the sample Session, the query-remove for the open device
handle, and with no Session, a query-remove for a handle that is not open. -/
theorem C5_device_event_classification_witness :
    (300 : HANDLE) ≠ INVALID_HANDLE_VALUE ∧
    (MonitorCtrlHandlerEx 7 SERVICE_CONTROL_DEVICEEVENT DBT_DEVICEQUERYREMOVE
        { dbch_devicetype := DBT_DEVTYP_HANDLE, dbcc_classguid := 0, dbch_handle := 300 }
        attachedContext).trace = [Effect.SetEvent attachedContext.RemoveEvent] ∧
    idleContext.Device = INVALID_HANDLE_VALUE ∧
    (MonitorCtrlHandlerEx 7 SERVICE_CONTROL_DEVICEEVENT DBT_DEVICEQUERYREMOVE
        { dbch_devicetype := DBT_DEVTYP_HANDLE, dbcc_classguid := 0, dbch_handle := 300 }
        idleContext).trace = [] :=
  ⟨by decide,
   ((C5_device_event_classification 7 DBT_DEVICEQUERYREMOVE
      { dbch_devicetype := DBT_DEVTYP_HANDLE, dbcc_classguid := 0, dbch_handle := 300 }
      attachedContext).2.2.2.1 (by decide)).trans (by decide),
   by decide,
   (C5_device_event_classification 7 DBT_DEVICEQUERYREMOVE
      { dbch_devicetype := DBT_DEVTYP_HANDLE, dbcc_classguid := 0, dbch_handle := 300 }
      idleContext).2.2.2.2.1 (by decide) (by decide) rfl⟩

/-- C6: each time the wait reports that the process exited (`WAIT_OBJECT_1`),
`MonitorThread` closes that process's two handles and its next call is one
`CreateProcess` with the command line of the first launch, which, when it
succeeds, is directly followed by the next wait; `n` such exits followed by a
cancellation give exactly `n + 1` launches, all with that command line. -/
theorem C6_relaunch_after_exit (E P : TSTR) (ev : HANDLE) (exits : List (HANDLE × HANDLE)) :
    (∀ (l : Launch) (rest : List Launch),
      ∃ ok hP hT tail,
        (MonitorThread E P ev true (exits.map exited ++ l :: rest)).trace =
          Effect.callocCommandLine (CommandLineLength E P) true ::
            (exitTurns (CommandLineBuffer E P) ev exits ++
              Effect.CreateProcess (CommandLineBuffer E P) ok hP hT :: tail)) ∧
    (∀ (hP hT : HANDLE) (Object : DWORD) (rest : List Launch),
      ∃ tail,
        (MonitorThread E P ev true
          (exits.map exited ++ Launch.started hP hT Object :: rest)).trace =
          Effect.callocCommandLine (CommandLineLength E P) true ::
            (exitTurns (CommandLineBuffer E P) ev exits ++
              Effect.CreateProcess (CommandLineBuffer E P) true hP hT ::
              Effect.WaitForMultipleObjects [ev, hP] Object :: tail)) ∧
    (∀ (hP hT : HANDLE) (rest : List Launch),
      launchedCommandLines
        (MonitorThread E P ev true
          (exits.map exited ++ Launch.started hP hT WAIT_OBJECT_0 :: rest)).trace =
        List.replicate (exits.length + 1) (CommandLineBuffer E P)) := by
  refine ⟨?_, ?_, ?_⟩
  · intro l rest
    rw [MonitorThread_exits]
    cases l with
    | failed => exact ⟨_, _, _, _, rfl⟩
    | started hP hT Object =>
      unfold MonitorThreadLoop
      split_ifs
      · exact ⟨_, _, _, _, rfl⟩
      · exact ⟨_, _, _, _, rfl⟩
      · exact ⟨_, _, _, _, rfl⟩
  · intro hP hT Object rest
    rw [MonitorThread_exits]
    unfold MonitorThreadLoop
    split_ifs
    · exact ⟨_, rfl⟩
    · exact ⟨_, rfl⟩
    · exact ⟨_, rfl⟩
  · intro hP hT rest
    rw [MonitorThread_exits]
    simp [launchedCommandLines, launchedCommandLines_append, launchedCommandLines_exitTurns,
      MonitorThreadLoop, List.replicate_succ', WAIT_OBJECT_0]

/-- C7: when the wait reports the cancellation event (`WAIT_OBJECT_0`), after
any number of earlier relaunches, the calls from that launch on are exactly:
the `CreateProcess`, the wait, `ResetEvent`, one `TerminateProcess` on that
process, `CloseHandle` on its process handle, `CloseHandle` on its thread
handle, `free` of the command line; no further `CreateProcess` follows and
`MonitorThread` returns 0. -/
theorem C7_cancellation_terminates (E P : TSTR) (ev : HANDLE) (exits : List (HANDLE × HANDLE))
    (hP hT : HANDLE) (rest : List Launch) :
    (MonitorThread E P ev true
        (exits.map exited ++ Launch.started hP hT WAIT_OBJECT_0 :: rest)).exit = some 0 ∧
    (MonitorThread E P ev true
        (exits.map exited ++ Launch.started hP hT WAIT_OBJECT_0 :: rest)).trace =
      (MonitorThread E P ev true (exits.map exited)).trace ++
        [Effect.CreateProcess (CommandLineBuffer E P) true hP hT,
         Effect.WaitForMultipleObjects [ev, hP] WAIT_OBJECT_0,
         Effect.ResetEvent ev,
         Effect.TerminateProcess hP 1,
         Effect.CloseHandle hP,
         Effect.CloseHandle hT,
         Effect.free (some (CommandLineBuffer E P))] := by
  have h := MonitorThread_exits E P ev exits []
  rw [List.append_nil] at h
  rw [MonitorThread_exits, h]
  simp [MonitorThreadLoop]

/-- C8: when a `CreateProcess` call fails, at the first launch or after any
number of relaunches, the only call `MonitorThread` makes after it is the
`free` of the command line (no further `CreateProcess`, no `TerminateProcess`,
no `CloseHandle`), and it returns 1. -/
theorem C8_launch_failure_is_final (E P : TSTR) (ev : HANDLE) (exits : List (HANDLE × HANDLE))
    (rest : List Launch) :
    (MonitorThread E P ev true (exits.map exited ++ Launch.failed :: rest)).exit = some 1 ∧
    (MonitorThread E P ev true (exits.map exited ++ Launch.failed :: rest)).trace =
      (MonitorThread E P ev true (exits.map exited)).trace ++
        [Effect.CreateProcess (CommandLineBuffer E P) false NULL NULL,
         Effect.free (some (CommandLineBuffer E P))] := by
  have h := MonitorThread_exits E P ev exits []
  rw [List.append_nil] at h
  rw [MonitorThread_exits, h]
  simp [MonitorThreadLoop]

/-- C9 (counterexample): for the sample executable and device path, the command
line handed to `CreateProcess` is the executable unquoted, a space, and the
device path between double quotes; it is not the string with both quoted. -/
theorem C9_quoted_executable_counterexample :
    launchedCommandLines
        (MonitorThread sampleExecutable sampleDevicePath 308 true [Launch.failed]).trace
      = [CommandLineBuffer sampleExecutable sampleDevicePath] ∧
    cstring (CommandLineBuffer sampleExecutable sampleDevicePath) =
      sampleExecutable ++ [Char.ofNat 32, Char.ofNat 34] ++ sampleDevicePath ++ [Char.ofNat 34] ∧
    cstring (CommandLineBuffer sampleExecutable sampleDevicePath) ≠
      SpecCommandLine sampleExecutable sampleDevicePath := by
  decide

/-- C9 (amended): for every executable path `E` and device path `P` (C strings,
short enough that the `DWORD` size computation does not wrap), the buffer
`MonitorThread` hands to every `CreateProcess` call holds exactly `E`, one
space, a double quote, `P`, a double quote and the terminating NUL: only the
device path is quoted, the executable is not. -/
theorem C9_command_line (E P : TSTR) (hlen : E.length + P.length + 4 < 2 ^ 32)
    (hE : NUL ∉ E) (hP : NUL ∉ P) :
    CommandLineBuffer E P =
      E ++ [Char.ofNat 32, Char.ofNat 34] ++ P ++ [Char.ofNat 34] ++ [NUL] ∧
    cstring (CommandLineBuffer E P) = E ++ [Char.ofNat 32, Char.ofNat 34] ++ P ++ [Char.ofNat 34] ∧
    (∀ (ev : HANDLE) (launches : List Launch),
      ∀ c ∈ launchedCommandLines (MonitorThread E P ev true launches).trace,
        c = CommandLineBuffer E P) := by
  have hb := CommandLineBuffer_eq E P hlen
  refine ⟨hb, ?_, ?_⟩
  · rw [hb]
    apply cstring_terminated
    simp only [CommandLineFormat, List.mem_append, List.mem_cons, List.mem_singleton,
      List.not_mem_nil, or_false, not_or]
    exact ⟨⟨⟨hE, by decide, by decide⟩, hP⟩, by decide⟩
  · intro ev launches c hc
    simp only [MonitorThread, if_false, List.singleton_append, launchedCommandLines,
      Bool.true_eq_false] at hc
    exact MonitorThreadLoop_commandLines _ _ _ c hc

/-- C9 (amended) on the sample executable and device path. -/
theorem C9_command_line_witness :
    sampleExecutable.length + sampleDevicePath.length + 4 < 2 ^ 32 ∧
    NUL ∉ sampleExecutable ∧ NUL ∉ sampleDevicePath ∧
    cstring (CommandLineBuffer sampleExecutable sampleDevicePath) =
      sampleExecutable ++ [Char.ofNat 32, Char.ofNat 34] ++ sampleDevicePath ++ [Char.ofNat 34] :=
  ⟨by decide, by decide, by decide,
   (C9_command_line sampleExecutable sampleDevicePath (by decide) (by decide) (by decide)).2.1⟩

/-- C10: for every buffer and `Length` (a `DWORD`) and every sequence of
`WriteFile` answers in which a successful write reports between 1 and the
requested number of bytes, `PutString` returns (within `Length` iterations);
its `i`-th call starts at the offset equal to the total reported by the calls
before it and asks for all the remaining `Length - Offset` bytes; every call
but the last succeeded, so no write follows a failure; and it stops either with
every call successful and the reported total equal to `Length`, or right after
its first failed write. -/
theorem C10_PutString_retries (W : WriteOutcomes) (fuel : Nat) (Handle : HANDLE) (Buffer : TSTR)
    (Length : DWORD)
    (hL : Length < DWORD_MOD)
    (hW : ∀ k n, 0 < n → (W k n).Success = true → 1 ≤ (W k n).Written ∧ (W k n).Written ≤ n)
    (hfuel : Length ≤ fuel) :
    (PutString W fuel Handle Buffer Length).returned = true ∧
    (∀ i, i < (PutString W fuel Handle Buffer Length).trace.length →
      (PutString W fuel Handle Buffer Length).trace[i]? = some
        (Effect.WriteFile Handle Buffer
          ((((PutString W fuel Handle Buffer Length).trace.take i).map Effect.written).sum)
          (Length - (((PutString W fuel Handle Buffer Length).trace.take i).map Effect.written).sum)
          (W i (Length -
            (((PutString W fuel Handle Buffer Length).trace.take i).map Effect.written).sum)).Success
          (W i (Length -
            (((PutString W fuel Handle Buffer Length).trace.take i).map
              Effect.written).sum)).Written)) ∧
    (∀ i e, i + 1 < (PutString W fuel Handle Buffer Length).trace.length →
      (PutString W fuel Handle Buffer Length).trace[i]? = some e → e.succeeded = true) ∧
    (((∀ e ∈ (PutString W fuel Handle Buffer Length).trace, e.succeeded = true) ∧
        ((PutString W fuel Handle Buffer Length).trace.map Effect.written).sum = Length) ∨
      (∃ e, (PutString W fuel Handle Buffer Length).trace.getLast? = some e ∧
        e.succeeded = false)) := by
  have h := PutStringLoop_spec W Handle Buffer Length hL hW fuel 0 0 (Nat.zero_le _)
    (by simpa using hfuel)
  simpa [PutString] using h

/-- C10 on the ATTACHED marker with a `WriteFile` that takes half of what it is
offered: the marker goes out in four writes of 7, 4, 2 and 1 bytes. -/
theorem C10_PutString_retries_witness :
    ATTACHED.length < DWORD_MOD ∧ ATTACHED.length ≤ 14 ∧
    (PutString writeHalf 14 300 ATTACHED ATTACHED.length).returned = true ∧
    (PutString writeHalf 14 300 ATTACHED ATTACHED.length).trace =
      [Effect.WriteFile 300 ATTACHED 0 14 true 7, Effect.WriteFile 300 ATTACHED 7 7 true 4,
       Effect.WriteFile 300 ATTACHED 11 3 true 2, Effect.WriteFile 300 ATTACHED 13 1 true 1] :=
  ⟨by decide, by decide,
   (C10_PutString_retries writeHalf 14 300 ATTACHED ATTACHED.length (by decide)
      (by
        intro k n hn _
        simp only [writeHalf, DWORD] at *
        omega)
      (by decide)).1,
   by decide⟩

/-- C12: when no Session exists (device slot = `INVALID_HANDLE_VALUE`),
`MonitorRemove` makes no call at all, leaves every field of the context as it
was and returns; hence a second `MonitorRemove` right after it does the same
again.  More generally, after any `MonitorRemove` that returned, a second one
makes no call and changes nothing, so two in a row have the effect of one. -/
theorem C12_remove_without_session (o : RemoveOutcomes) (Context : MONITOR_CONTEXT)
    (h : Context.Device = INVALID_HANDLE_VALUE) :
    MonitorRemove o Context = { ctx := Context, trace := [], returned := true } ∧
    (∀ o₂, MonitorRemove o₂ (MonitorRemove o Context).ctx = MonitorRemove o Context) ∧
    (∀ (c : MONITOR_CONTEXT) (o₁ o₂ : RemoveOutcomes), (MonitorRemove o₁ c).returned = true →
      MonitorRemove o₂ (MonitorRemove o₁ c).ctx =
        { ctx := (MonitorRemove o₁ c).ctx, trace := [], returned := true }) := by
  have hnop : ∀ (c : MONITOR_CONTEXT) (o' : RemoveOutcomes), c.Device = INVALID_HANDLE_VALUE →
      MonitorRemove o' c = { ctx := c, trace := [], returned := true } := by
    intro c o' hc
    unfold MonitorRemove
    rw [if_pos hc]
  refine ⟨hnop Context o h, ?_, ?_⟩
  · intro o₂
    rw [hnop Context o h]
    exact hnop Context o₂ h
  · intro c o₁ o₂ hr
    exact hnop _ o₂ (MonitorRemove_returned_device o₁ c hr)

/-- C12 on the sample context with no Session. -/
theorem C12_remove_without_session_witness :
    idleContext.Device = INVALID_HANDLE_VALUE ∧
    MonitorRemove removeWrites idleContext =
      { ctx := idleContext, trace := [], returned := true } :=
  ⟨rfl, (C12_remove_without_session removeWrites idleContext rfl).1⟩

/-- C14 (the code at the failing input): the device path is resolved, the
device opens, the marker is written, the query-remove registration succeeds and
`CreateEvent` returns `NULL`.  On the way out `MonitorAdd` frees the path
through `Context->DevicePath`, unregisters, closes the device and then frees the
same path again through `Path`: the path string is freed twice, the first time
before the registration and the device handle are released. -/
theorem C14_CreateEvent_failure_frees_path_twice :
    (MonitorAdd 7 addEventFails idleContext).returned = true ∧
    (MonitorAdd 7 addEventFails idleContext).trace =
      (MonitorGetPath 7 pathFound).trace ++
      [Effect.CreateFile sampleDevicePath 300,
       Effect.WriteFile 300 ATTACHED 0 14 true 14,
       Effect.RegisterDeviceNotification 100 DBT_DEVTYP_HANDLE 300 0 304,
       Effect.CreateEvent NULL,
       Effect.free (some sampleDevicePath),
       Effect.UnregisterDeviceNotification 304,
       Effect.CloseHandle 300,
       Effect.free (some sampleDevicePath)] ∧
    (MonitorAdd 7 addEventFails idleContext).trace.count (Effect.free (some sampleDevicePath))
      = 2 := by
  decide

/-- C15: for every executable path `E` and device path `P` with
`E.length + P.length + 4 < 2 ^ 32`, the zero-filled buffer `MonitorThread`
allocates has `E.length + 2 + P.length + 2` characters; the formatted text with
its terminating NUL fits in it; the limit `CommandLineLength - 1` passed to the
formatter leaves the text whole; and the buffer handed to every `CreateProcess`
call has the size of the allocation and is the text followed by one NUL, so it
is NUL-terminated. -/
theorem C15_command_line_fits (E P : TSTR) (hlen : E.length + P.length + 4 < 2 ^ 32) :
    CommandLineLength E P = E.length + 2 + P.length + 2 ∧
    (callocBuffer (CommandLineLength E P)).length = E.length + 2 + P.length + 2 ∧
    (∀ c ∈ callocBuffer (CommandLineLength E P), c = NUL) ∧
    (CommandLineFormat E P).length + 1 ≤ (callocBuffer (CommandLineLength E P)).length ∧
    (CommandLineFormat E P).take ((CommandLineLength E P + DWORD_MOD - 1) % DWORD_MOD)
      = CommandLineFormat E P ∧
    (CommandLineBuffer E P).length = (callocBuffer (CommandLineLength E P)).length ∧
    CommandLineBuffer E P = CommandLineFormat E P ++ [NUL] ∧
    (CommandLineBuffer E P).getLast? = some NUL ∧
    (∀ (ev : HANDLE) (launches : List Launch),
      ∀ c ∈ launchedCommandLines (MonitorThread E P ev true launches).trace,
        c = CommandLineBuffer E P) := by
  have h : E.length + P.length + 4 < 4294967296 := by norm_num at hlen; exact hlen
  have hcl := CommandLineLength_eq E P hlen
  have hfl := CommandLineFormat_length E P
  have hb := CommandLineBuffer_eq E P hlen
  have hcount : (CommandLineLength E P + DWORD_MOD - 1) % DWORD_MOD
      = E.length + P.length + 3 := by
    rw [hcl, DWORD_MOD_eq]
    show (E.length + P.length + 4 + 4294967296 - 1) % 4294967296 = E.length + P.length + 3
    omega
  have hbuf : (callocBuffer (CommandLineLength E P)).length = E.length + 2 + P.length + 2 := by
    rw [hcl]
    simp only [callocBuffer, sizeof_TCHAR, Nat.div_one, List.length_replicate]
    omega
  have h1 : CommandLineLength E P = E.length + 2 + P.length + 2 := by
    rw [hcl]
    show E.length + P.length + 4 = E.length + 2 + P.length + 2
    omega
  refine ⟨h1, hbuf, ?_, ?_, ?_, ?_, hb, ?_, ?_⟩
  · intro c hc
    simp only [callocBuffer, List.mem_replicate] at hc
    exact hc.2
  · rw [hbuf, hfl]; omega
  · rw [hcount]
    exact List.take_of_length_le (by omega)
  · rw [hb, hbuf, List.length_append, hfl]
    simp only [List.length_singleton]
    omega
  · rw [hb]
    simp
  · intro ev launches c hc
    simp only [MonitorThread, if_false, List.singleton_append, launchedCommandLines,
      Bool.true_eq_false] at hc
    exact MonitorThreadLoop_commandLines _ _ _ c hc

/-- C15 on the sample executable and device path. -/
theorem C15_command_line_fits_witness :
    sampleExecutable.length + sampleDevicePath.length + 4 < 2 ^ 32 ∧
    (CommandLineFormat sampleExecutable sampleDevicePath).length + 1 ≤
      (callocBuffer (CommandLineLength sampleExecutable sampleDevicePath)).length ∧
    (CommandLineBuffer sampleExecutable sampleDevicePath).getLast? = some NUL :=
  have h := C15_command_line_fits sampleExecutable sampleDevicePath (by decide)
  ⟨by decide, h.2.2.2.1, h.2.2.2.2.2.2.2.1⟩


/-- C11: if the executable setting cannot be read from the parameters key (the
key cannot be queried or the value is missing) or its type is not `REG_SZ`,
then `GetExecutable` returns `FALSE`, and `MonitorMain` returns having made only
start-up and unwinding calls: never `RegisterDeviceNotification`, never
`SetEvent`, never the `WaitForMultipleObjects` of the reaction loop (after which
alone `MonitorAdd` is called), never a call of `MonitorAdd`; what it does is the
same whatever wakes and reactions would have followed.  When start-up got as far
as `GetExecutable`, its last six calls close the three events, report
`SERVICE_STOPPED` with the last error, deregister the event source and close
the parameters key, and the phase left in the context is `SERVICE_STOPPED`. -/
theorem C11_unreadable_executable_aborts (G : GUID) (o : MainOutcomes) (wakes : List Wake)
    (Context : MONITOR_CONTEXT)
    (hbad : o.Executable.InfoError ≠ ERROR_SUCCESS ∨ o.Executable.ValueError ≠ ERROR_SUCCESS ∨
      o.Executable.ValueType ≠ REG_SZ) :
    (∀ c, (GetExecutable o.Executable c).Success = false) ∧
    (MonitorMain G o wakes Context).returned = true ∧
    (∀ e ∈ (MonitorMain G o wakes Context).trace, e.startupCall = true) ∧
    (∀ R ty h g n,
      Effect.RegisterDeviceNotification R ty h g n ∉ (MonitorMain G o wakes Context).trace) ∧
    (∀ h, Effect.SetEvent h ∉ (MonitorMain G o wakes Context).trace) ∧
    (∀ hs r, Effect.WaitForMultipleObjects hs r ∉ (MonitorMain G o wakes Context).trace) ∧
    (∀ g r, Effect.SetupDiGetClassDevs g r ∉ (MonitorMain G o wakes Context).trace) ∧
    (∀ p h, Effect.CreateFile p h ∉ (MonitorMain G o wakes Context).trace) ∧
    (∀ h, Effect.CreateThread h ∉ (MonitorMain G o wakes Context).trace) ∧
    MonitorMain G o wakes Context = MonitorMain G o [] Context ∧
    (o.OpenKeyError = ERROR_SUCCESS ∧ o.Service ≠ NULL ∧ o.EventLog ≠ NULL ∧
        o.StopEvent ≠ NULL ∧ o.AddEvent ≠ NULL ∧ o.RemoveEvent ≠ NULL →
      (MonitorMain G o wakes Context).ctx.Status.dwCurrentState = SERVICE_STOPPED ∧
      ∃ pre st,
        (MonitorMain G o wakes Context).trace =
          pre ++ [Effect.CloseHandle o.RemoveEvent, Effect.CloseHandle o.AddEvent,
                  Effect.CloseHandle o.StopEvent, Effect.SetServiceStatus o.Service st,
                  Effect.DeregisterEventSource o.EventLog,
                  Effect.CloseHandle o.ParametersKey] ∧
        st.dwCurrentState = SERVICE_STOPPED ∧ st.dwWin32ExitCode = o.LastError) := by
  have hge : ∀ c, (GetExecutable o.Executable c).Success = false :=
    fun c => GetExecutable_fails o.Executable c hbad
  obtain ⟨hret, hcalls, hsame⟩ := MonitorMain_abort G o wakes Context hge
  have habsent : ∀ e : Effect, e.startupCall = false →
      e ∉ (MonitorMain G o wakes Context).trace := by
    intro e he hm
    rw [hcalls e hm] at he
    exact Bool.noConfusion he
  refine ⟨hge, hret, hcalls, fun _ _ _ _ _ => habsent _ rfl, fun _ => habsent _ rfl,
    fun _ _ => habsent _ rfl, fun _ _ => habsent _ rfl, fun _ _ => habsent _ rfl,
    fun _ => habsent _ rfl, hsame, ?_⟩
  rintro ⟨h1, h2, h3, h4, h5, h6⟩
  obtain ⟨c7, t7, f1, f2, f3, f4, f5, f6, hm⟩ :=
    MonitorMain_at_fail7 G o wakes Context hge h1 h2 h3 h4 h5 h6
  obtain ⟨g1, g2, g3, g4, g5, g6⟩ := GetExecutable_frame o.Executable c7
  obtain ⟨s1, s2, s3, s4⟩ := MonitorMain_fail7_shape o.LastError
    (GetExecutable o.Executable c7).ctx (t7 ++ (GetExecutable o.Executable c7).trace)
  rw [hm]
  refine ⟨s2, t7 ++ (GetExecutable o.Executable c7).trace,
    (ReportStatus SERVICE_STOPPED o.LastError 0 (GetExecutable o.Executable c7).ctx).1.Status,
    ?_, s3, s4⟩
  rw [s1, g1, g2, g3, g4, g5, g6, f1, f2, f3, f4, f5, f6]

/-- C11 on the sample start-up in which the parameters key has no value named
`Executable`. -/
theorem C11_unreadable_executable_aborts_witness :
    startupNoExecutable.Executable.ValueError ≠ ERROR_SUCCESS ∧
    (MonitorMain 7 startupNoExecutable [wakeAdd, wakeStop] zeroContext).returned = true ∧
    (MonitorMain 7 startupNoExecutable [wakeAdd, wakeStop] zeroContext).ctx.Status.dwCurrentState
      = SERVICE_STOPPED :=
  have h := C11_unreadable_executable_aborts 7 startupNoExecutable [wakeAdd, wakeStop]
    zeroContext (Or.inr (Or.inl (by decide)))
  ⟨by decide, h.2.1, (h.2.2.2.2.2.2.2.2.2.2 (by decide)).1⟩

end Xencons
